import Mathlib

/-!
Verification development for the catalyst-screening orchestration layer
(`catalyst_system.py` and `database_utils.py`).

The Python code is shallowly embedded: the ase record store becomes an
explicit `DB` state, Python object mutation becomes state passing, external
library calls (slab enumeration, adsorbate placement, energy relaxation)
become oracle function parameters, and exceptions become `Except` results.
Printed log lines and filesystem effects are recorded as explicit traces.
-/

/-- Atomic structure (ase `Atoms`). `tag` identifies the structure, `formula`
models `get_chemical_formula()`, and `db_id` models the Python attribute
assigned by the database writers (`none` = attribute not set). -/
structure Atoms where
  tag : Nat
  formula : String := ""
  db_id : Option Nat := none
deriving Repr, DecidableEq

/-- Models `Atoms.get_chemical_formula()`. -/
def Atoms.get_chemical_formula (a : Atoms) : String := a.formula

/-- A bulk crystal (fairchem `Bulk(bulk_atoms=...)`): wraps the atoms and later
receives a database id. -/
structure Bulk where
  atoms : Atoms
  db_id : Option Nat := none
deriving Repr, DecidableEq

/-- A slab cut from a bulk (fairchem `Slab`): atoms, back-reference to the
owning bulk object, and a database id assigned on write. -/
structure Slab where
  atoms : Atoms
  bulk : Bulk
  db_id : Option Nat := none
deriving Repr, DecidableEq

/-- An adsorbate molecule (fairchem `Adsorbate`): wraps its atoms. -/
structure Adsorbate where
  atoms : Atoms
deriving Repr, DecidableEq

/-- An adsorbate-slab configuration (fairchem `AdsorbateSlabConfig`): the slab,
the adsorbate, the list of candidate placed structures, and the placement
policy arguments. -/
structure AdsorbateSlabConfig where
  slab : Slab
  adsorbate : Adsorbate
  atoms_list : List Atoms
  mode : String
  num_sites : Nat
  num_augmentations_per_site : Nat
deriving Repr, DecidableEq

/-- External placement routine: given slab, adsorbate, num_sites,
num_augmentations_per_site and mode, produces the candidate atoms list.
This is the part of the fairchem `AdsorbateSlabConfig` constructor that this
repository delegates to. -/
def PlaceFn : Type := Slab → Adsorbate → Nat → Nat → String → List Atoms

/-- Models the fairchem constructor call
`AdsorbateSlabConfig(slab, adsorbate, num_sites, num_augmentations_per_site,
mode=mode)`: it stores its arguments and generates the candidate atoms list
through the external placement routine. -/
def AdsorbateSlabConfig.ofExternal (place : PlaceFn) (slab : Slab)
    (adsorbate : Adsorbate) (num_sites num_aug : Nat) (mode : String) :
    AdsorbateSlabConfig :=
  { slab := slab
    adsorbate := adsorbate
    atoms_list := place slab adsorbate num_sites num_aug mode
    mode := mode
    num_sites := num_sites
    num_augmentations_per_site := num_aug }

/-- A relaxed adsorbate-slab: the object returned by
`calculate.calculate_energy_of_slab`, after `relax_adsorbate_slabs` has
annotated it with ids and the adsorbate formula. -/
structure RelaxedAdslab where
  atoms : Atoms
  bulk_id : Option Nat := none
  slab_id : Option Nat := none
  adslab_id : Option Nat := none
  adsorbate : String := ""
deriving Repr, DecidableEq

/-- One record in the ase database: the written structure plus the keyword
tags used by this repository (`bulk_id`, `slab_id`, `adslab_id`, `relaxed`).
A tag is `none` when the corresponding keyword was not passed to `write`. -/
structure Record where
  atoms : Atoms
  bulk_id : Option Nat := none
  slab_id : Option Nat := none
  adslab_id : Option Nat := none
  relaxed : Option Bool := none
deriving Repr, DecidableEq

/-- The ase record store. Ids are assigned monotonically by the store.
`isOpen` tracks the scoped acquisition performed by `with db as db`.
`failAt` is the failure model: the store raises on the write that would be
assigned that id (`none` = no failure). -/
structure DB where
  nextId : Nat := 0
  records : List (Nat × Record) := []
  isOpen : Bool := false
  failAt : Option Nat := none
deriving Repr, DecidableEq

/-- Models `db.write(...)`: returns the assigned id and the grown store, or
raises when the store is set to fail at this id. -/
def DB.writeRec (db : DB) (r : Record) : Except String (Nat × DB) :=
  if db.failAt = some db.nextId then
    .error "DatabaseError: write failed"
  else
    .ok (db.nextId,
      { db with nextId := db.nextId + 1, records := db.records ++ [(db.nextId, r)] })

/-- Models `with db as db: body` — the store handle is acquired, the body runs
(possibly raising), and the handle is released on every exit path. -/
def withDB (db : DB) (body : DB → Except String α × DB) : Except String α × DB :=
  let acquired : DB := { db with isOpen := true }
  let out := body acquired
  (out.1, { out.2 with isOpen := false })

/-- Loop body of `write_bulks_to_db`: writes each bulk atoms object and
assigns the returned id back onto the bulk (`bulk.db_id = id`). -/
def writeBulksLoop : List Bulk → DB → Except String (List Bulk) × DB
  | [], db => (.ok [], db)
  | b :: bs, db =>
    match db.writeRec { atoms := b.atoms } with
    | .error e => (.error e, db)
    | .ok (id, db1) =>
      match writeBulksLoop bs db1 with
      | (.ok rest, db2) => (.ok ({ b with db_id := some id } :: rest), db2)
      | (.error e, db2) => (.error e, db2)

/-- Models `database_utils.write_bulks_to_db(bulks, db)`. The returned list
holds the bulks after the `bulk.db_id = id` mutations. -/
def write_bulks_to_db (bulks : List Bulk) (db : DB) : Except String (List Bulk) × DB :=
  withDB db (writeBulksLoop bulks)

/-- Inner loop of `write_slabs_to_db`: writes one group of slabs, each tagged
with `bulk_id=slab.bulk.db_id`, and assigns the returned id back onto the
slab (`slab.db_id = id`). -/
def writeSlabGroupLoop : List Slab → DB → Except String (List Slab) × DB
  | [], db => (.ok [], db)
  | s :: ss, db =>
    match db.writeRec { atoms := s.atoms, bulk_id := s.bulk.db_id } with
    | .error e => (.error e, db)
    | .ok (id, db1) =>
      match writeSlabGroupLoop ss db1 with
      | (.ok rest, db2) => (.ok ({ s with db_id := some id } :: rest), db2)
      | (.error e, db2) => (.error e, db2)

/-- Outer loop of `write_slabs_to_db`: iterates over the slab lists. -/
def writeSlabsLoop : List (List Slab) → DB → Except String (List (List Slab)) × DB
  | [], db => (.ok [], db)
  | g :: gs, db =>
    match writeSlabGroupLoop g db with
    | (.error e, db1) => (.error e, db1)
    | (.ok g1, db1) =>
      match writeSlabsLoop gs db1 with
      | (.ok rest, db2) => (.ok (g1 :: rest), db2)
      | (.error e, db2) => (.error e, db2)

/-- Models `database_utils.write_slabs_to_db(slabs, db)`: `slabs` is a list of
slab lists (`for slab_list in slabs: for slab in slab_list`). -/
def write_slabs_to_db (slabs : List (List Slab)) (db : DB) :
    Except String (List (List Slab)) × DB :=
  withDB db (writeSlabsLoop slabs)

/-- Inner loop of `write_adsorbate_slab_configs_to_db`: writes every candidate
structure of one configuration, tagged with the parent bulk id, parent slab id
and `relaxed=False`, and assigns the returned id back onto the candidate
(`atom_obj.db_id = id`). -/
def writeConfigAtomsLoop (cfg : AdsorbateSlabConfig) :
    List Atoms → DB → Except String (List Atoms) × DB
  | [], db => (.ok [], db)
  | a :: as_, db =>
    match db.writeRec
        { atoms := a, bulk_id := cfg.slab.bulk.db_id,
          slab_id := cfg.slab.db_id, relaxed := some false } with
    | .error e => (.error e, db)
    | .ok (id, db1) =>
      match writeConfigAtomsLoop cfg as_ db1 with
      | (.ok rest, db2) => (.ok ({ a with db_id := some id } :: rest), db2)
      | (.error e, db2) => (.error e, db2)

/-- Outer loop of `write_adsorbate_slab_configs_to_db`. -/
def writeConfigsLoop : List AdsorbateSlabConfig → DB →
    Except String (List (List Atoms)) × DB
  | [], db => (.ok [], db)
  | cfg :: cfgs, db =>
    match writeConfigAtomsLoop cfg cfg.atoms_list db with
    | (.error e, db1) => (.error e, db1)
    | (.ok updated, db1) =>
      match writeConfigsLoop cfgs db1 with
      | (.ok rest, db2) => (.ok (updated :: rest), db2)
      | (.error e, db2) => (.error e, db2)

/-- Models `database_utils.write_adsorbate_slab_configs_to_db(configs, db)`.
The returned lists hold each configuration's candidates after the
`atom_obj.db_id = id` mutations. -/
def write_adsorbate_slab_configs_to_db (cfgs : List AdsorbateSlabConfig) (db : DB) :
    Except String (List (List Atoms)) × DB :=
  withDB db (writeConfigsLoop cfgs)

/-- Loop body of `write_adsorbate_slabs_to_db`: writes every relaxed result
tagged with `bulk_id`, `slab_id`, `adslab_id` and `relaxed=True`. No id is
assigned back. -/
def writeAdslabsLoop : List RelaxedAdslab → DB → Except String Unit × DB
  | [], db => (.ok (), db)
  | x :: xs, db =>
    match db.writeRec
        { atoms := x.atoms, bulk_id := x.bulk_id, slab_id := x.slab_id,
          adslab_id := x.adslab_id, relaxed := some true } with
    | .error e => (.error e, db)
    | .ok (_, db1) => writeAdslabsLoop xs db1

/-- Models `database_utils.write_adsorbate_slabs_to_db(adslabs, db)`. -/
def write_adsorbate_slabs_to_db (adslabs : List RelaxedAdslab) (db : DB) :
    Except String Unit × DB :=
  withDB db (writeAdslabsLoop adslabs)

/-- Calculator handle passed to `set_calculator` (opaque to this code). -/
structure Calc where
  tag : Nat
deriving Repr, DecidableEq

/-- External slab enumeration `Slab.from_bulk_get_all_slabs(bulk)`: returns a
slab list or raises. -/
def EnumFn : Type := Bulk → Except String (List Slab)

/-- External relaxation routine
`calculate.calculate_energy_of_slab(atom_obj, traj_path, log_path, calc)`:
returns the relaxed structure or raises. -/
def CalcFn : Type := Atoms → String → String → Option Calc → Except String Atoms

/-- Models `os.path.join(base, rel)` for the non-degenerate inputs this code
produces (a base without a trailing separator and a relative second part). -/
def ospathJoin (base rel : String) : String := base ++ "/" ++ rel

/-- Python string formatting of an optional id inside an f-string: `None`
formats as the text "None". -/
def idStr : Option Nat → String
  | none => "None"
  | some n => toString n

/-- Models `os.makedirs(dir, exist_ok=True)` on a filesystem modelled as the
list of existing directories: creates the directory if absent, succeeds
silently if it already exists. -/
def makedirsExistOk (fs : List String) (dir : String) : List String :=
  if dir ∈ fs then fs else fs ++ [dir]

/-- The state of a `CatalystSystem` object. `adsorbate_slab_configs = none`
models the attribute never having been created (the constructor only assigns
it inside `if self.slabs:`); reading it then raises `AttributeError`. -/
structure CatalystSystem where
  path : Option String
  calcOpt : Option Calc
  bulk : Bulk
  slabs : Option (List Slab)
  adsorbate_slab_configs : Option (List AdsorbateSlabConfig)

/-- Models `CatalystSystem.bulk_to_slabs`: delegates to the external
enumeration, catching any exception, printing two log lines and returning
`None` on failure. Returns the result together with the printed log lines. -/
def CatalystSystem.bulk_to_slabs (enum : EnumFn) (bulk : Bulk) :
    Option (List Slab) × List String :=
  match enum bulk with
  | .ok slabs => (some slabs, [])
  | .error e => (none, ["Error creating slab from bulk", e])

/-- Models `CatalystSystem.slab_to_adsorbate_slab_config`: builds the external
`AdsorbateSlabConfig(slab, adsorbate, num_sites, num_augmentations_per_site,
mode=mode)`. -/
def CatalystSystem.slab_to_adsorbate_slab_config (place : PlaceFn) (slab : Slab)
    (adsorbate : Adsorbate) (mode : String) (num_sites num_aug : Nat) :
    AdsorbateSlabConfig :=
  AdsorbateSlabConfig.ofExternal place slab adsorbate num_sites num_aug mode

/-- Models `CatalystSystem.__init__`: sets `path` and `calc` to `None`, wraps
the atoms in a `Bulk`, enumerates slabs through `bulk_to_slabs`, and — only
when the slab list is truthy (not `None` and non-empty) — builds one
configuration per slab. Returns the object and the printed log lines. -/
def CatalystSystem.init (enum : EnumFn) (place : PlaceFn) (bulk_atoms : Atoms)
    (adsorbate : Adsorbate) (mode : String) (num_sites num_aug : Nat) :
    CatalystSystem × List String :=
  let bulk : Bulk := { atoms := bulk_atoms }
  let out := CatalystSystem.bulk_to_slabs enum bulk
  let configs : Option (List AdsorbateSlabConfig) :=
    match out.1 with
    | none => none
    | some ss =>
      if ss.isEmpty then none
      else some (ss.map (fun s =>
        CatalystSystem.slab_to_adsorbate_slab_config place s adsorbate mode num_sites num_aug))
  ({ path := none, calcOpt := none, bulk := bulk, slabs := out.1,
     adsorbate_slab_configs := configs }, out.2)

/-- Models `CatalystSystem.set_calculator`. -/
def CatalystSystem.set_calculator (sys : CatalystSystem) (c : Calc) : CatalystSystem :=
  { sys with calcOpt := some c }

/-- Models `CatalystSystem.set_path`. -/
def CatalystSystem.set_path (sys : CatalystSystem) (p : String) : CatalystSystem :=
  { sys with path := some p }

/-- Observable events of `relax_adsorbate_slabs`: directory creation, a
relaxation call with its log and trajectory paths, the caught-and-printed
per-candidate failure with its identifying context, and a call to the
database writer with the batch size. -/
inductive RelaxEvent where
  | mkdir (dir : String)
  | relaxCall (i : Nat) (logPath trajPath : String)
  | logError (bulkId slabId : Option Nat) (i : Nat)
  | dbWriteCall (batchSize : Nat)
deriving Repr, DecidableEq

/-- Recognizes database-writer call events in a relaxation trace. -/
def RelaxEvent.isDbWriteCall : RelaxEvent → Bool
  | .dbWriteCall _ => true
  | _ => false

/-- The per-bulk/slab output directory
`os.path.join(self.path, f"bulk{bulk_id}_slab{slab_id}")`. -/
def bulkSlabDir (p : String) (bulkId slabId : Option Nat) : String :=
  ospathJoin p ("bulk" ++ idStr bulkId ++ "_slab" ++ idStr slabId)

/-- The per-candidate relaxation log path
`os.path.join(self.path, f"bulk{bulk_id}_slab{slab_id}/adslab{i}.txt")`. -/
def adslabLogPath (p : String) (bulkId slabId : Option Nat) (i : Nat) : String :=
  ospathJoin p
    ("bulk" ++ idStr bulkId ++ "_slab" ++ idStr slabId ++ "/adslab" ++ toString i ++ ".txt")

/-- The per-candidate trajectory path
`os.path.join(self.path, f"bulk{bulk_id}_slab{slab_id}/adslab{i}.traj")`. -/
def adslabTrajPath (p : String) (bulkId slabId : Option Nat) (i : Nat) : String :=
  ospathJoin p
    ("bulk" ++ idStr bulkId ++ "_slab" ++ idStr slabId ++ "/adslab" ++ toString i ++ ".traj")

/-- Inner loop of `relax_adsorbate_slabs` (`for i, atom_obj in
enumerate(...)`): builds the per-candidate log and trajectory paths, calls the
external relaxation, catches and logs a failure (skipping the candidate), and
otherwise annotates the relaxed structure with bulk id, slab id, candidate
index and adsorbate formula. Returns the surviving results and the events. -/
def relaxLoop (calcE : CalcFn) (p : String) (bulkId slabId : Option Nat)
    (ads : String) (calcOpt : Option Calc) :
    List Atoms → Nat → List RelaxedAdslab × List RelaxEvent
  | [], _ => ([], [])
  | a :: rest, i =>
    let logPath := adslabLogPath p bulkId slabId i
    let trajPath := adslabTrajPath p bulkId slabId i
    let out := relaxLoop calcE p bulkId slabId ads calcOpt rest (i + 1)
    match calcE a logPath trajPath calcOpt with
    | .error _ =>
      (out.1, .relaxCall i logPath trajPath :: .logError bulkId slabId i :: out.2)
    | .ok r =>
      ({ atoms := r, bulk_id := bulkId, slab_id := slabId,
         adslab_id := some i, adsorbate := ads } :: out.1,
       .relaxCall i logPath trajPath :: out.2)

/-- Outer loop of `relax_adsorbate_slabs` (`for adsorbate_slab_config in
self.adsorbate_slab_configs`), following the statement order of the source:
first `bulk_id = adsorbate_slab_config.slab.bulk.db_id` and
`slab_id = adsorbate_slab_config.slab.db_id` — attribute reads that raise
`AttributeError` when the id was never assigned by a database write — then the
adsorbate formula, then the directory creation whose `os.path.join` raises
`TypeError` when `self.path` is still `None`. Past those, every candidate is
relaxed and the batch of surviving results is written to the database in one
call. A database error is not caught and stops the loop. -/
def relaxConfigsLoop (calcE : CalcFn) (path : Option String) (calcOpt : Option Calc) :
    List AdsorbateSlabConfig → DB → List String →
    Except String Unit × DB × List String × List RelaxEvent
  | [], db, fs => (.ok (), db, fs, [])
  | cfg :: rest, db, fs =>
    match cfg.slab.bulk.db_id with
    | none =>
      (.error "AttributeError: Bulk object has no attribute db_id", db, fs, [])
    | some bulkId =>
      match cfg.slab.db_id with
      | none =>
        (.error "AttributeError: Slab object has no attribute db_id", db, fs, [])
      | some slabId =>
        let ads := cfg.adsorbate.atoms.get_chemical_formula
        match path with
        | none =>
          (.error "TypeError: expected str, bytes or os.PathLike object, not NoneType",
           db, fs, [])
        | some p =>
          let dir := bulkSlabDir p (some bulkId) (some slabId)
          let fs1 := makedirsExistOk fs dir
          let inner := relaxLoop calcE p (some bulkId) (some slabId) ads calcOpt
            cfg.atoms_list 0
          match write_adsorbate_slabs_to_db inner.1 db with
          | (.error e, db1) =>
            (.error e, db1, fs1,
             .mkdir dir :: inner.2 ++ [.dbWriteCall inner.1.length])
          | (.ok _, db1) =>
            let out := relaxConfigsLoop calcE path calcOpt rest db1 fs1
            (out.1, out.2.1, out.2.2.1,
             .mkdir dir :: inner.2 ++ .dbWriteCall inner.1.length :: out.2.2.2)

/-- Models `CatalystSystem.relax_adsorbate_slabs(db)`: reading the
`adsorbate_slab_configs` attribute raises `AttributeError` when the
constructor never created it; otherwise the configurations are processed in
order. Returns the outcome, the final store, the final filesystem and the
event trace. -/
def CatalystSystem.relax_adsorbate_slabs (calcE : CalcFn) (sys : CatalystSystem)
    (db : DB) (fs : List String) :
    Except String Unit × DB × List String × List RelaxEvent :=
  match sys.adsorbate_slab_configs with
  | none =>
    (.error "AttributeError: CatalystSystem object has no attribute adsorbate_slab_configs",
     db, fs, [])
  | some configs => relaxConfigsLoop calcE sys.path sys.calcOpt configs db fs

/-- The function names defined by the module `database_utils.py` (its module
attributes). -/
def database_utils_attrs : List String :=
  ["write_bulks_to_db", "write_slabs_to_db",
   "write_adsorbate_slab_configs_to_db", "write_adsorbate_slabs_to_db"]

/-- Models `CatalystSystem.write_to_db(bulk_db, slab_db)`. The source calls
`database_utils.write_bulk_to_db(self.bulk, bulk_db)`, but `database_utils.py`
defines no function of that name (only the plural `write_bulks_to_db`, see
`database_utils_attrs`), so the attribute lookup raises `AttributeError`
before any record is written; both stores are returned unchanged. -/
def CatalystSystem.write_to_db (sys : CatalystSystem) (bulk_db slab_db : DB) :
    Except String Unit × DB × DB :=
  if "write_bulk_to_db" ∈ database_utils_attrs then
    (.ok (), bulk_db, slab_db)
  else
    (.error "AttributeError: module database_utils has no attribute write_bulk_to_db",
     bulk_db, slab_db)

/-- Records produced by the `write_bulks_to_db` loop starting at id `n`. -/
def bulkRecs : List Bulk → Nat → List (Nat × Record)
  | [], _ => []
  | b :: bs, n => (n, { atoms := b.atoms }) :: bulkRecs bs (n + 1)

/-- The bulks after the `write_bulks_to_db` loop assigned ids from `n`. -/
def bulkOut : List Bulk → Nat → List Bulk
  | [], _ => []
  | b :: bs, n => { b with db_id := some n } :: bulkOut bs (n + 1)

/-- Records produced by one slab group of the `write_slabs_to_db` loop. -/
def slabRecsG : List Slab → Nat → List (Nat × Record)
  | [], _ => []
  | s :: ss, n => (n, { atoms := s.atoms, bulk_id := s.bulk.db_id }) :: slabRecsG ss (n + 1)

/-- One slab group after the `write_slabs_to_db` loop assigned ids from `n`. -/
def slabOutG : List Slab → Nat → List Slab
  | [], _ => []
  | s :: ss, n => { s with db_id := some n } :: slabOutG ss (n + 1)

/-- Records produced by the whole `write_slabs_to_db` loop. -/
def slabRecs : List (List Slab) → Nat → List (Nat × Record)
  | [], _ => []
  | g :: gs, n => slabRecsG g n ++ slabRecs gs (n + g.length)

/-- All slab groups after the `write_slabs_to_db` loop. -/
def slabOut : List (List Slab) → Nat → List (List Slab)
  | [], _ => []
  | g :: gs, n => slabOutG g n :: slabOut gs (n + g.length)

/-- Records produced for one configuration by
`write_adsorbate_slab_configs_to_db`. -/
def cfgAtomRecs (cfg : AdsorbateSlabConfig) : List Atoms → Nat → List (Nat × Record)
  | [], _ => []
  | a :: as_, n =>
    (n, { atoms := a, bulk_id := cfg.slab.bulk.db_id,
          slab_id := cfg.slab.db_id, relaxed := some false }) :: cfgAtomRecs cfg as_ (n + 1)

/-- One configuration's candidates after id assignment. -/
def cfgAtomOut : List Atoms → Nat → List Atoms
  | [], _ => []
  | a :: as_, n => { a with db_id := some n } :: cfgAtomOut as_ (n + 1)

/-- Records produced by the whole `write_adsorbate_slab_configs_to_db` loop. -/
def cfgRecs : List AdsorbateSlabConfig → Nat → List (Nat × Record)
  | [], _ => []
  | cfg :: cfgs, n => cfgAtomRecs cfg cfg.atoms_list n ++ cfgRecs cfgs (n + cfg.atoms_list.length)

/-- All configurations' candidates after id assignment. -/
def cfgOut : List AdsorbateSlabConfig → Nat → List (List Atoms)
  | [], _ => []
  | cfg :: cfgs, n => cfgAtomOut cfg.atoms_list n :: cfgOut cfgs (n + cfg.atoms_list.length)

/-- Records produced by the `write_adsorbate_slabs_to_db` loop. -/
def adslabRecs : List RelaxedAdslab → Nat → List (Nat × Record)
  | [], _ => []
  | x :: xs, n =>
    (n, { atoms := x.atoms, bulk_id := x.bulk_id, slab_id := x.slab_id,
          adslab_id := x.adslab_id, relaxed := some true }) :: adslabRecs xs (n + 1)

/-- Construction data for a slab in the two-phase write scenario of
`write_bulks_to_db` followed by `write_slabs_to_db`: its atoms and the index
of its parent bulk in the bulk list. -/
structure SlabSpec where
  atoms : Atoms
  bulkIdx : Nat
deriving Repr, DecidableEq

/-- The caller-side scenario behind the two database calls: first
`write_bulks_to_db(bulks, db)`, then `write_slabs_to_db(slabs, db)` where every
slab's `bulk` attribute aliases one of the bulk objects just mutated by the
bulk write (Python shares the objects; here the sharing is made explicit by
rebuilding each slab from the updated bulk at its `bulkIdx`). Returns the final
store, the updated bulks and the updated slab groups. -/
def write_bulks_then_slabs (bulks : List Bulk) (groups : List (List SlabSpec))
    (db : DB) : DB × Except String (List Bulk) × Except String (List (List Slab)) :=
  let outB := write_bulks_to_db bulks db
  match outB.1 with
  | .error e => (outB.2, .error e, .error e)
  | .ok bulks1 =>
    let slabs : List (List Slab) := groups.map (fun g => g.map (fun sp =>
      { atoms := sp.atoms,
        bulk := bulks1.getD sp.bulkIdx { atoms := { tag := 0 } } }))
    let outS := write_slabs_to_db slabs outB.2
    (outS.2, .ok bulks1, outS.1)

/-- Concrete atoms used by the witness instances. -/
def atomsW (n : Nat) : Atoms := { tag := n }

/-- Concrete bulk used by the witness instances. -/
def bulkW : Bulk := { atoms := atomsW 0 }

/-- Concrete slab (with persisted parent ids) used by the witness instances. -/
def slabW1 : Slab :=
  { atoms := atomsW 5, bulk := { atoms := atomsW 0, db_id := some 7 }, db_id := some 3 }

/-- Concrete slab as produced by the witness enumeration oracle. -/
def slabW0 : Slab := { atoms := atomsW 5, bulk := { atoms := atomsW 0 } }

/-- Concrete adsorbate used by the witness instances. -/
def adsW : Adsorbate := { atoms := { tag := 50, formula := "CO2" } }

/-- Concrete three-candidate configuration used by the witness instances. -/
def cfgW : AdsorbateSlabConfig :=
  { slab := slabW1, adsorbate := adsW,
    atoms_list := [atomsW 0, atomsW 1, atomsW 2], mode := "m", num_sites := 3,
    num_augmentations_per_site := 1 }

/-- Concrete ready-to-relax system used by the witness instances. -/
def sysW : CatalystSystem :=
  { path := some "out", calcOpt := none, bulk := bulkW, slabs := some [slabW1],
    adsorbate_slab_configs := some [cfgW] }

/-- Concrete relaxation oracle: fails on the candidate with tag 1, succeeds
elsewhere. -/
def calcEW : CalcFn := fun a _ _ _ =>
  if a.tag = 1 then .error "boom" else .ok { tag := a.tag + 100 }

/-- Expected relaxed structure per candidate index for `calcEW`. -/
def fW : Nat → Atoms := fun j => { tag := j + 100 }

/-- Fresh non-failing store used by the witness instances. -/
def dbW : DB := {}

/-- Store set to fail on its second write. -/
def dbFailW : DB := { failAt := some 1 }

/-- Enumeration oracle returning one slab of the given bulk. -/
def enumW : EnumFn := fun b => .ok [{ atoms := atomsW 5, bulk := b }]

/-- Enumeration oracle that raises. -/
def enumFailW : EnumFn := fun _ => .error "lib crash"

/-- Enumeration oracle returning no slabs. -/
def enumEmptyW : EnumFn := fun _ => .ok []

/-- Placement oracle returning one candidate. -/
def placeW : PlaceFn := fun _ _ _ _ _ => [atomsW 8]

/-- Concrete one-candidate configuration whose slab ids were never assigned
(fresh objects, no database write). -/
def cfgNoIdsW : AdsorbateSlabConfig :=
  { slab := slabW0, adsorbate := adsW, atoms_list := [atomsW 0], mode := "m",
    num_sites := 1, num_augmentations_per_site := 1 }

/-- Concrete system holding a configuration with unassigned ids and no path. -/
def sysNoIdsW : CatalystSystem :=
  { path := none, calcOpt := none, bulk := bulkW, slabs := some [slabW0],
    adsorbate_slab_configs := some [cfgNoIdsW] }

/-- The concrete ready system with its ids assigned but `set_path` undone. -/
def sysNoPathW : CatalystSystem := { sysW with path := none }

/-- Bulks for the two-phase write witness. -/
def bulksW : List Bulk := [bulkW, { atoms := atomsW 1 }]

/-- Slab construction data for the two-phase write witness. -/
def groupsW : List (List SlabSpec) :=
  [[{ atoms := atomsW 10, bulkIdx := 1 }], [{ atoms := atomsW 11, bulkIdx := 0 }]]

/-- The `write_bulks_to_db` loop on a non-failing store writes one record per
bulk at consecutive ids and assigns those ids back onto the bulks. -/
theorem writeBulksLoop_ok (bs : List Bulk) (db : DB) (h : db.failAt = none) :
    writeBulksLoop bs db =
      (.ok (bulkOut bs db.nextId),
       { db with nextId := db.nextId + bs.length,
                 records := db.records ++ bulkRecs bs db.nextId }) := by
  induction bs generalizing db with
  | nil => simp [writeBulksLoop, bulkOut, bulkRecs]
  | cons b bs ih =>
    have hne : ¬ (db.failAt = some db.nextId) := by simp [h]
    simp only [writeBulksLoop, DB.writeRec, if_neg hne]
    rw [ih _ (by simp [h])]
    simp [bulkOut, bulkRecs, Nat.add_assoc, Nat.add_comm 1 bs.length]

/-- One slab group on a non-failing store: one record per slab, tagged with
the parent bulk id read off the slab object, ids assigned back. -/
theorem writeSlabGroupLoop_ok (ss : List Slab) (db : DB) (h : db.failAt = none) :
    writeSlabGroupLoop ss db =
      (.ok (slabOutG ss db.nextId),
       { db with nextId := db.nextId + ss.length,
                 records := db.records ++ slabRecsG ss db.nextId }) := by
  induction ss generalizing db with
  | nil => simp [writeSlabGroupLoop, slabOutG, slabRecsG]
  | cons s ss ih =>
    have hne : ¬ (db.failAt = some db.nextId) := by simp [h]
    simp only [writeSlabGroupLoop, DB.writeRec, if_neg hne]
    rw [ih _ (by simp [h])]
    simp [slabOutG, slabRecsG, Nat.add_assoc, Nat.add_comm 1 ss.length]

/-- The whole `write_slabs_to_db` loop on a non-failing store. -/
theorem writeSlabsLoop_ok (gs : List (List Slab)) (db : DB) (h : db.failAt = none) :
    writeSlabsLoop gs db =
      (.ok (slabOut gs db.nextId),
       { db with nextId := db.nextId + (gs.map List.length).sum,
                 records := db.records ++ slabRecs gs db.nextId }) := by
  induction gs generalizing db with
  | nil => simp [writeSlabsLoop, slabOut, slabRecs]
  | cons g gs ih =>
    simp only [writeSlabsLoop]
    rw [writeSlabGroupLoop_ok g db h]
    dsimp only
    rw [ih _ (by simp [h])]
    simp [slabOut, slabRecs, Nat.add_assoc]

/-- One configuration's candidates on a non-failing store: one record per
candidate with parent ids and `relaxed=False`, ids assigned back. -/
theorem writeConfigAtomsLoop_ok (cfg : AdsorbateSlabConfig) (as_ : List Atoms)
    (db : DB) (h : db.failAt = none) :
    writeConfigAtomsLoop cfg as_ db =
      (.ok (cfgAtomOut as_ db.nextId),
       { db with nextId := db.nextId + as_.length,
                 records := db.records ++ cfgAtomRecs cfg as_ db.nextId }) := by
  induction as_ generalizing db with
  | nil => simp [writeConfigAtomsLoop, cfgAtomOut, cfgAtomRecs]
  | cons a as_ ih =>
    have hne : ¬ (db.failAt = some db.nextId) := by simp [h]
    simp only [writeConfigAtomsLoop, DB.writeRec, if_neg hne]
    rw [ih _ (by simp [h])]
    simp [cfgAtomOut, cfgAtomRecs, Nat.add_assoc, Nat.add_comm 1 as_.length]

/-- The whole `write_adsorbate_slab_configs_to_db` loop on a non-failing
store. -/
theorem writeConfigsLoop_ok (cfgs : List AdsorbateSlabConfig) (db : DB)
    (h : db.failAt = none) :
    writeConfigsLoop cfgs db =
      (.ok (cfgOut cfgs db.nextId),
       { db with nextId := db.nextId + (cfgs.map (fun c => c.atoms_list.length)).sum,
                 records := db.records ++ cfgRecs cfgs db.nextId }) := by
  induction cfgs generalizing db with
  | nil => simp [writeConfigsLoop, cfgOut, cfgRecs]
  | cons cfg cfgs ih =>
    simp only [writeConfigsLoop]
    rw [writeConfigAtomsLoop_ok cfg cfg.atoms_list db h]
    dsimp only
    rw [ih _ (by simp [h])]
    simp [cfgOut, cfgRecs, Nat.add_assoc]

/-- The `write_adsorbate_slabs_to_db` loop on a non-failing store: one record
per relaxed result with its ids and `relaxed=True`. -/
theorem writeAdslabsLoop_ok (xs : List RelaxedAdslab) (db : DB) (h : db.failAt = none) :
    writeAdslabsLoop xs db =
      (.ok (),
       { db with nextId := db.nextId + xs.length,
                 records := db.records ++ adslabRecs xs db.nextId }) := by
  induction xs generalizing db with
  | nil => simp [writeAdslabsLoop, adslabRecs]
  | cons x xs ih =>
    have hne : ¬ (db.failAt = some db.nextId) := by simp [h]
    simp only [writeAdslabsLoop, DB.writeRec, if_neg hne]
    rw [ih _ (by simp [h])]
    simp [adslabRecs, Nat.add_assoc, Nat.add_comm 1 xs.length]

/-- The bulk loop on a store failing at id `m` inside the loop range: the
exception propagates and the records written before the failure remain. -/
theorem writeBulksLoop_fail (bs : List Bulk) (db : DB) (m : Nat)
    (h : db.failAt = some m) (h1 : db.nextId ≤ m) (h2 : m < db.nextId + bs.length) :
    writeBulksLoop bs db =
      (.error "DatabaseError: write failed",
       { db with nextId := m,
                 records := db.records ++ (bulkRecs bs db.nextId).take (m - db.nextId) }) := by
  induction bs generalizing db with
  | nil => simp at h2; omega
  | cons b bs ih =>
    by_cases hm : m = db.nextId
    · subst hm
      simp [writeBulksLoop, DB.writeRec, h]
      rw [← h]
    · have hne : ¬ (db.failAt = some db.nextId) := by simp [h]; omega
      simp only [writeBulksLoop, DB.writeRec, if_neg hne]
      rw [ih _ (by simp [h]) (by simp; omega) (by simp at h2 ⊢; omega)]
      have htake : m - db.nextId = (m - (db.nextId + 1)) + 1 := by omega
      simp [bulkRecs, htake, List.append_assoc]

/-- The slab group loop on a store failing at id `m` inside the range. -/
theorem writeSlabGroupLoop_fail (ss : List Slab) (db : DB) (m : Nat)
    (h : db.failAt = some m) (h1 : db.nextId ≤ m) (h2 : m < db.nextId + ss.length) :
    writeSlabGroupLoop ss db =
      (.error "DatabaseError: write failed",
       { db with nextId := m,
                 records := db.records ++ (slabRecsG ss db.nextId).take (m - db.nextId) }) := by
  induction ss generalizing db with
  | nil => simp at h2; omega
  | cons s ss ih =>
    by_cases hm : m = db.nextId
    · subst hm
      simp [writeSlabGroupLoop, DB.writeRec, h]
      rw [← h]
    · have hne : ¬ (db.failAt = some db.nextId) := by simp [h]; omega
      simp only [writeSlabGroupLoop, DB.writeRec, if_neg hne]
      rw [ih _ (by simp [h]) (by simp; omega) (by simp at h2 ⊢; omega)]
      have htake : m - db.nextId = (m - (db.nextId + 1)) + 1 := by omega
      simp [slabRecsG, htake, List.append_assoc]

/-- The slab group loop succeeds when the store's failure id lies at or beyond
the end of the group's id range. -/
theorem writeSlabGroupLoop_ok_ge (ss : List Slab) (db : DB) (m : Nat)
    (h : db.failAt = some m) (h1 : db.nextId + ss.length ≤ m) :
    writeSlabGroupLoop ss db =
      (.ok (slabOutG ss db.nextId),
       { db with nextId := db.nextId + ss.length,
                 records := db.records ++ slabRecsG ss db.nextId }) := by
  induction ss generalizing db with
  | nil => simp [writeSlabGroupLoop, slabOutG, slabRecsG]
  | cons s ss ih =>
    have hne : ¬ (db.failAt = some db.nextId) := by simp [h]; simp at h1; omega
    simp only [writeSlabGroupLoop, DB.writeRec, if_neg hne]
    rw [ih _ (by simp [h]) (by simp at h1 ⊢; omega)]
    simp [slabOutG, slabRecsG, Nat.add_assoc, Nat.add_comm 1 ss.length]

/-- Length of the record list produced for one slab group. -/
theorem slabRecsG_length (ss : List Slab) (n : Nat) : (slabRecsG ss n).length = ss.length := by
  induction ss generalizing n with
  | nil => simp [slabRecsG]
  | cons s ss ih => simp [slabRecsG, ih]

/-- The whole slab-writing loop on a store failing at id `m` inside the range:
the exception propagates and the records written before the failure remain. -/
theorem writeSlabsLoop_fail (gs : List (List Slab)) (db : DB) (m : Nat)
    (h : db.failAt = some m) (h1 : db.nextId ≤ m)
    (h2 : m < db.nextId + (gs.map List.length).sum) :
    writeSlabsLoop gs db =
      (.error "DatabaseError: write failed",
       { db with nextId := m,
                 records := db.records ++ (slabRecs gs db.nextId).take (m - db.nextId) }) := by
  induction gs generalizing db with
  | nil => simp at h2; omega
  | cons g gs ih =>
    by_cases hg : m < db.nextId + g.length
    · simp only [writeSlabsLoop]
      rw [writeSlabGroupLoop_fail g db m h h1 hg]
      have htk : (slabRecsG g db.nextId ++ slabRecs gs (db.nextId + g.length)).take (m - db.nextId)
          = (slabRecsG g db.nextId).take (m - db.nextId) :=
        List.take_append_of_le_length (by rw [slabRecsG_length]; omega)
      simp [slabRecs, htk]
    · simp only [writeSlabsLoop]
      rw [writeSlabGroupLoop_ok_ge g db m h (by omega)]
      dsimp only
      rw [ih _ (by simp [h]) (by simp; omega) (by simp at h2 ⊢; omega)]
      have htake : m - db.nextId = (slabRecsG g db.nextId).length + (m - (db.nextId + g.length)) := by
        rw [slabRecsG_length]; omega
      simp only [slabRecs, htake, List.take_append_eq_append_take]
      simp [List.append_assoc, slabRecsG_length]

/-- One configuration's candidate loop on a store failing at id `m` inside the
range. -/
theorem writeConfigAtomsLoop_fail (cfg : AdsorbateSlabConfig) (as_ : List Atoms)
    (db : DB) (m : Nat) (h : db.failAt = some m) (h1 : db.nextId ≤ m)
    (h2 : m < db.nextId + as_.length) :
    writeConfigAtomsLoop cfg as_ db =
      (.error "DatabaseError: write failed",
       { db with nextId := m,
                 records := db.records ++ (cfgAtomRecs cfg as_ db.nextId).take (m - db.nextId) }) := by
  induction as_ generalizing db with
  | nil => simp at h2; omega
  | cons a as_ ih =>
    by_cases hm : m = db.nextId
    · subst hm
      simp [writeConfigAtomsLoop, DB.writeRec, h]
      rw [← h]
    · have hne : ¬ (db.failAt = some db.nextId) := by simp [h]; omega
      simp only [writeConfigAtomsLoop, DB.writeRec, if_neg hne]
      rw [ih _ (by simp [h]) (by simp; omega) (by simp at h2 ⊢; omega)]
      have htake : m - db.nextId = (m - (db.nextId + 1)) + 1 := by omega
      simp [cfgAtomRecs, htake, List.append_assoc]

/-- One configuration's candidate loop succeeds when the store's failure id
lies at or beyond the end of its id range. -/
theorem writeConfigAtomsLoop_ok_ge (cfg : AdsorbateSlabConfig) (as_ : List Atoms)
    (db : DB) (m : Nat) (h : db.failAt = some m) (h1 : db.nextId + as_.length ≤ m) :
    writeConfigAtomsLoop cfg as_ db =
      (.ok (cfgAtomOut as_ db.nextId),
       { db with nextId := db.nextId + as_.length,
                 records := db.records ++ cfgAtomRecs cfg as_ db.nextId }) := by
  induction as_ generalizing db with
  | nil => simp [writeConfigAtomsLoop, cfgAtomOut, cfgAtomRecs]
  | cons a as_ ih =>
    have hne : ¬ (db.failAt = some db.nextId) := by simp [h]; simp at h1; omega
    simp only [writeConfigAtomsLoop, DB.writeRec, if_neg hne]
    rw [ih _ (by simp [h]) (by simp at h1 ⊢; omega)]
    simp [cfgAtomOut, cfgAtomRecs, Nat.add_assoc, Nat.add_comm 1 as_.length]

/-- Length of the record list produced for one configuration. -/
theorem cfgAtomRecs_length (cfg : AdsorbateSlabConfig) (as_ : List Atoms) (n : Nat) :
    (cfgAtomRecs cfg as_ n).length = as_.length := by
  induction as_ generalizing n with
  | nil => simp [cfgAtomRecs]
  | cons a as_ ih => simp [cfgAtomRecs, ih]

/-- The whole configuration-writing loop on a store failing at id `m` inside
the range: the exception propagates and the earlier records remain. -/
theorem writeConfigsLoop_fail (cfgs : List AdsorbateSlabConfig) (db : DB) (m : Nat)
    (h : db.failAt = some m) (h1 : db.nextId ≤ m)
    (h2 : m < db.nextId + (cfgs.map (fun c => c.atoms_list.length)).sum) :
    writeConfigsLoop cfgs db =
      (.error "DatabaseError: write failed",
       { db with nextId := m,
                 records := db.records ++ (cfgRecs cfgs db.nextId).take (m - db.nextId) }) := by
  induction cfgs generalizing db with
  | nil => simp at h2; omega
  | cons cfg cfgs ih =>
    by_cases hg : m < db.nextId + cfg.atoms_list.length
    · simp only [writeConfigsLoop]
      rw [writeConfigAtomsLoop_fail cfg cfg.atoms_list db m h h1 hg]
      have htk : (cfgAtomRecs cfg cfg.atoms_list db.nextId
            ++ cfgRecs cfgs (db.nextId + cfg.atoms_list.length)).take (m - db.nextId)
          = (cfgAtomRecs cfg cfg.atoms_list db.nextId).take (m - db.nextId) :=
        List.take_append_of_le_length (by rw [cfgAtomRecs_length]; omega)
      simp [cfgRecs, htk]
    · simp only [writeConfigsLoop]
      rw [writeConfigAtomsLoop_ok_ge cfg cfg.atoms_list db m h (by omega)]
      dsimp only
      rw [ih _ (by simp [h]) (by simp; omega) (by simp at h2 ⊢; omega)]
      have htake : m - db.nextId
          = (cfgAtomRecs cfg cfg.atoms_list db.nextId).length
            + (m - (db.nextId + cfg.atoms_list.length)) := by
        rw [cfgAtomRecs_length]; omega
      simp only [cfgRecs, htake, List.take_append_eq_append_take]
      simp [List.append_assoc, cfgAtomRecs_length]

/-- The relaxed-adslab loop on a store failing at id `m` inside the range. -/
theorem writeAdslabsLoop_fail (xs : List RelaxedAdslab) (db : DB) (m : Nat)
    (h : db.failAt = some m) (h1 : db.nextId ≤ m) (h2 : m < db.nextId + xs.length) :
    writeAdslabsLoop xs db =
      (.error "DatabaseError: write failed",
       { db with nextId := m,
                 records := db.records ++ (adslabRecs xs db.nextId).take (m - db.nextId) }) := by
  induction xs generalizing db with
  | nil => simp at h2; omega
  | cons x xs ih =>
    by_cases hm : m = db.nextId
    · subst hm
      simp [writeAdslabsLoop, DB.writeRec, h]
      rw [← h]
    · have hne : ¬ (db.failAt = some db.nextId) := by simp [h]; omega
      simp only [writeAdslabsLoop, DB.writeRec, if_neg hne]
      rw [ih _ (by simp [h]) (by simp; omega) (by simp at h2 ⊢; omega)]
      have htake : m - db.nextId = (m - (db.nextId + 1)) + 1 := by omega
      simp [adslabRecs, htake, List.append_assoc]

/-- Filtering out a value below the start of a `range'` keeps everything. -/
theorem range'_filter_ne_all (len i0 k : Nat) (h : k < i0) :
    (List.range' i0 len).filter (fun j => j ≠ k) = List.range' i0 len := by
  induction len generalizing i0 with
  | zero => simp
  | succ n ih =>
    rw [List.range'_succ, List.filter_cons]
    have hd : decide (i0 ≠ k) = true := by simp; omega
    simp only [hd, if_true]
    rw [ih (i0 + 1) (by omega)]

/-- Filtering one in-range value out of a `range'` drops exactly one
element. -/
theorem range'_filter_ne_len (len i0 k : Nat) (h1 : i0 ≤ k) (h2 : k < i0 + len) :
    ((List.range' i0 len).filter (fun j => j ≠ k)).length = len - 1 := by
  induction len generalizing i0 with
  | zero => omega
  | succ n ih =>
    rw [List.range'_succ, List.filter_cons]
    by_cases hik : i0 = k
    · subst hik
      have hd : decide (i0 ≠ i0) = false := by simp
      simp only [hd, if_false, Bool.false_eq_true]
      rw [range'_filter_ne_all n (i0 + 1) i0 (by omega)]
      simp
    · have hd : decide (i0 ≠ k) = true := by simp [hik]
      simp only [hd, if_true]
      have hn : 1 ≤ n := by omega
      rw [List.length_cons, ih (i0 + 1) (by omega) (by omega)]
      omega

/-- The inner relaxation loop when the external relaxation fails exactly at
candidate index `k` and returns `f j` at every other index: the surviving
results are, in order, the annotated relaxed structures of every index other
than `k`, each keeping its original index. -/
theorem relaxLoop_kfail (calcE : CalcFn) (p : String) (bulkId slabId : Option Nat)
    (ads : String) (calcOpt : Option Calc) (l : List Atoms) (i0 k : Nat)
    (f : Nat → Atoms) (emsg : String)
    (hok : ∀ j (hj : j < l.length), i0 + j ≠ k →
      calcE (l.get ⟨j, hj⟩) (adslabLogPath p bulkId slabId (i0 + j))
        (adslabTrajPath p bulkId slabId (i0 + j)) calcOpt = .ok (f (i0 + j)))
    (hfail : ∀ j (hj : j < l.length), i0 + j = k →
      calcE (l.get ⟨j, hj⟩) (adslabLogPath p bulkId slabId (i0 + j))
        (adslabTrajPath p bulkId slabId (i0 + j)) calcOpt = .error emsg) :
    (relaxLoop calcE p bulkId slabId ads calcOpt l i0).1 =
      ((List.range' i0 l.length).filter (fun j => j ≠ k)).map
        (fun j => { atoms := f j, bulk_id := bulkId, slab_id := slabId,
                    adslab_id := some j, adsorbate := ads }) := by
  induction l generalizing i0 with
  | nil => simp [relaxLoop]
  | cons a rest ih =>
    have hokr : ∀ j (hj : j < rest.length), (i0 + 1) + j ≠ k →
        calcE (rest.get ⟨j, hj⟩) (adslabLogPath p bulkId slabId ((i0 + 1) + j))
          (adslabTrajPath p bulkId slabId ((i0 + 1) + j)) calcOpt = .ok (f ((i0 + 1) + j)) := by
      intro j hj hne
      have := hok (j + 1) (by simp; omega) (by omega)
      simpa [Nat.add_assoc, Nat.add_comm 1 j] using this
    have hfailr : ∀ j (hj : j < rest.length), (i0 + 1) + j = k →
        calcE (rest.get ⟨j, hj⟩) (adslabLogPath p bulkId slabId ((i0 + 1) + j))
          (adslabTrajPath p bulkId slabId ((i0 + 1) + j)) calcOpt = .error emsg := by
      intro j hj heq
      have := hfail (j + 1) (by simp; omega) (by omega)
      simpa [Nat.add_assoc, Nat.add_comm 1 j] using this
    by_cases hik : i0 = k
    · have hhead := hfail 0 (by simp) (by omega)
      simp only [List.get, Nat.add_zero] at hhead
      simp only [relaxLoop]
      rw [hhead]
      rw [List.length_cons, List.range'_succ, List.filter_cons]
      have hd : decide (i0 ≠ k) = false := by simp [hik]
      simp only [hd, if_false, Bool.false_eq_true]
      simpa using ih (i0 + 1) hokr hfailr
    · have hhead := hok 0 (by simp) (by omega)
      simp only [List.get, Nat.add_zero] at hhead
      simp only [relaxLoop]
      rw [hhead]
      rw [List.length_cons, List.range'_succ, List.filter_cons]
      have hd : decide (i0 ≠ k) = true := by simp [hik]
      simp only [hd, if_true, List.map_cons]
      have := ih (i0 + 1) hokr hfailr
      simp [this]

/-- Every candidate index gives rise to a relaxation-call event carrying its
per-candidate log and trajectory paths, whether or not the call succeeds. -/
theorem relaxLoop_relaxCall_mem (calcE : CalcFn) (p : String)
    (bulkId slabId : Option Nat) (ads : String) (calcOpt : Option Calc)
    (l : List Atoms) (i0 : Nat) (j : Nat) (hj : j < l.length) :
    RelaxEvent.relaxCall (i0 + j) (adslabLogPath p bulkId slabId (i0 + j))
        (adslabTrajPath p bulkId slabId (i0 + j))
      ∈ (relaxLoop calcE p bulkId slabId ads calcOpt l i0).2 := by
  induction l generalizing i0 j with
  | nil => simp at hj
  | cons a rest ih =>
    simp only [relaxLoop]
    cases j with
    | zero =>
      cases hc : calcE a (adslabLogPath p bulkId slabId i0) (adslabTrajPath p bulkId slabId i0) calcOpt with
      | error e => simp
      | ok r => simp
    | succ n =>
      have := ih (i0 + 1) n (by simp at hj; omega)
      have harith : i0 + 1 + n = i0 + (n + 1) := by omega
      rw [harith] at this
      cases hc : calcE a (adslabLogPath p bulkId slabId i0) (adslabTrajPath p bulkId slabId i0) calcOpt with
      | error e => simp [this]
      | ok r => simp [this]

/-- A candidate whose relaxation call fails produces a caught-failure log
event carrying the bulk id, slab id and candidate index. -/
theorem relaxLoop_logError_mem (calcE : CalcFn) (p : String)
    (bulkId slabId : Option Nat) (ads : String) (calcOpt : Option Calc)
    (l : List Atoms) (i0 : Nat) (j : Nat) (hj : j < l.length) (emsg : String)
    (hfail : calcE (l.get ⟨j, hj⟩) (adslabLogPath p bulkId slabId (i0 + j))
        (adslabTrajPath p bulkId slabId (i0 + j)) calcOpt = .error emsg) :
    RelaxEvent.logError bulkId slabId (i0 + j)
      ∈ (relaxLoop calcE p bulkId slabId ads calcOpt l i0).2 := by
  induction l generalizing i0 j with
  | nil => simp at hj
  | cons a rest ih =>
    simp only [relaxLoop]
    cases j with
    | zero =>
      simp only [List.get, Nat.add_zero] at hfail
      rw [hfail]
      simp
    | succ n =>
      have harith : i0 + (n + 1) = (i0 + 1) + n := by omega
      have hfail1 : calcE (rest.get ⟨n, by simp at hj; omega⟩)
          (adslabLogPath p bulkId slabId ((i0 + 1) + n))
          (adslabTrajPath p bulkId slabId ((i0 + 1) + n)) calcOpt = .error emsg := by
        rw [← harith]
        exact hfail
      have := ih (i0 + 1) n (by simp at hj; omega) hfail1
      rw [harith]
      cases hc : calcE a (adslabLogPath p bulkId slabId i0) (adslabTrajPath p bulkId slabId i0) calcOpt with
      | error e => simp [this]
      | ok r => simp [this]

/-- The inner loop never emits a database-write event: all its writes happen
through the single batched call made by the outer loop. -/
theorem relaxLoop_no_dbWrite (calcE : CalcFn) (p : String)
    (bulkId slabId : Option Nat) (ads : String) (calcOpt : Option Calc)
    (l : List Atoms) (i0 : Nat) (n : Nat) :
    RelaxEvent.dbWriteCall n ∉ (relaxLoop calcE p bulkId slabId ads calcOpt l i0).2 := by
  induction l generalizing i0 with
  | nil => simp [relaxLoop]
  | cons a rest ih =>
    simp only [relaxLoop]
    cases hc : calcE a (adslabLogPath p bulkId slabId i0) (adslabTrajPath p bulkId slabId i0) calcOpt with
    | error e => simp [ih (i0 + 1)]
    | ok r => simp [ih (i0 + 1)]

/-- C2: claimed, `write_to_db(bulk_db, slab_db)` writes the system's bulk and
every slab without raising. On the code this fails for every system: the
method calls `database_utils.write_bulk_to_db`, a name the module does not
define (it defines the plural `write_bulks_to_db`), so the attribute lookup
raises `AttributeError` and neither store receives a record. -/
theorem write_to_db_always_attribute_error (sys : CatalystSystem) (bulk_db slab_db : DB) :
    CatalystSystem.write_to_db sys bulk_db slab_db =
      (.error "AttributeError: module database_utils has no attribute write_bulk_to_db",
       bulk_db, slab_db) := by
  simp [CatalystSystem.write_to_db, database_utils_attrs]

/-- C3: for every bulk whose slab enumeration returns a non-empty list of N
slabs, construction builds exactly N adsorbate-slab configurations, the i-th
built from (and referencing) the i-th enumerated slab, in order. -/
theorem init_builds_config_per_slab (enum : EnumFn) (place : PlaceFn)
    (bulk_atoms : Atoms) (adsorbate : Adsorbate) (mode : String)
    (num_sites num_aug : Nat) (slabs : List Slab)
    (henum : enum { atoms := bulk_atoms } = .ok slabs) (hne : slabs ≠ []) :
    ∃ cfgs,
      (CatalystSystem.init enum place bulk_atoms adsorbate mode num_sites num_aug).1.adsorbate_slab_configs
        = some cfgs
      ∧ cfgs.length = slabs.length
      ∧ ∀ i (hi : i < cfgs.length) (hi2 : i < slabs.length),
          cfgs.get ⟨i, hi⟩
            = CatalystSystem.slab_to_adsorbate_slab_config place (slabs.get ⟨i, hi2⟩)
                adsorbate mode num_sites num_aug
          ∧ (cfgs.get ⟨i, hi⟩).slab = slabs.get ⟨i, hi2⟩ := by
  refine ⟨slabs.map (fun s =>
    CatalystSystem.slab_to_adsorbate_slab_config place s adsorbate mode num_sites num_aug), ?_, ?_, ?_⟩
  · simp [CatalystSystem.init, CatalystSystem.bulk_to_slabs, henum, hne]
  · simp
  · intro i hi hi2
    constructor
    · simp
    · simp [CatalystSystem.slab_to_adsorbate_slab_config, AdsorbateSlabConfig.ofExternal]

/-- C4: when slab enumeration raises, the constructor catches the error,
prints the failure (two log lines: a fixed message and the exception text),
leaves the slab list `None`, builds no configurations, and returns normally
(in this embedding `CatalystSystem.init` is total: no exception escapes). -/
theorem init_enum_failure_caught (enum : EnumFn) (place : PlaceFn)
    (bulk_atoms : Atoms) (adsorbate : Adsorbate) (mode : String)
    (num_sites num_aug : Nat) (e : String)
    (henum : enum { atoms := bulk_atoms } = .error e) :
    (CatalystSystem.init enum place bulk_atoms adsorbate mode num_sites num_aug).1.slabs = none
    ∧ (CatalystSystem.init enum place bulk_atoms adsorbate mode num_sites num_aug).1.adsorbate_slab_configs = none
    ∧ (CatalystSystem.init enum place bulk_atoms adsorbate mode num_sites num_aug).2
        = ["Error creating slab from bulk", e] := by
  simp [CatalystSystem.init, CatalystSystem.bulk_to_slabs, henum]

/-- C5: when slab enumeration failed (raised, or returned an empty list), the
`adsorbate_slab_configs` attribute is never created, and a later
`relax_adsorbate_slabs` call raises `AttributeError` instead of silently
iterating an empty configuration list: the store and filesystem are returned
untouched and no event happens. -/
theorem relax_after_failed_enumeration_attribute_error (enum : EnumFn) (place : PlaceFn)
    (bulk_atoms : Atoms) (adsorbate : Adsorbate) (mode : String)
    (num_sites num_aug : Nat) (calcE : CalcFn) (db : DB) (fs : List String)
    (henum : enum { atoms := bulk_atoms } = .ok []
      ∨ ∃ e, enum { atoms := bulk_atoms } = .error e) :
    (CatalystSystem.init enum place bulk_atoms adsorbate mode num_sites num_aug).1.adsorbate_slab_configs = none
    ∧ CatalystSystem.relax_adsorbate_slabs calcE
        (CatalystSystem.init enum place bulk_atoms adsorbate mode num_sites num_aug).1 db fs
      = (.error "AttributeError: CatalystSystem object has no attribute adsorbate_slab_configs",
         db, fs, []) := by
  have hnone :
      (CatalystSystem.init enum place bulk_atoms adsorbate mode num_sites num_aug).1.adsorbate_slab_configs = none := by
    rcases henum with h | ⟨e, h⟩
    · simp [CatalystSystem.init, CatalystSystem.bulk_to_slabs, h]
    · simp [CatalystSystem.init, CatalystSystem.bulk_to_slabs, h]
  refine ⟨hnone, ?_⟩
  simp [CatalystSystem.relax_adsorbate_slabs, hnone]

/-- C10 counterexample: on a freshly constructed system (so `set_path` was
never called and no database write ever assigned an id) the path field is
still `None`, yet `relax_adsorbate_slabs` does not fail in the filesystem
path-construction layer: it raises `AttributeError` reading the unassigned
`db_id` off the slab's bulk, before `os.path.join` is ever reached. -/
theorem relax_before_set_path_counterexample :
    (CatalystSystem.init enumW placeW (atomsW 0) adsW "m" 3 2).1.path = none
    ∧ CatalystSystem.relax_adsorbate_slabs calcEW
        (CatalystSystem.init enumW placeW (atomsW 0) adsW "m" 3 2).1 dbW []
      = (.error "AttributeError: Bulk object has no attribute db_id", dbW, [], [])
    ∧ ¬ (CatalystSystem.relax_adsorbate_slabs calcEW
          (CatalystSystem.init enumW placeW (atomsW 0) adsW "m" 3 2).1 dbW []
        = (.error "TypeError: expected str, bytes or os.PathLike object, not NoneType",
           dbW, [], [])) := by
  refine ⟨rfl, rfl, ?_⟩
  intro h
  have h1 : (Except.error "AttributeError: Bulk object has no attribute db_id"
        : Except String Unit)
      = Except.error "TypeError: expected str, bytes or os.PathLike object, not NoneType" :=
    congrArg Prod.fst h
  rw [Except.error.injEq] at h1
  exact absurd h1 (by decide)

/-- C10 (amended): a system on which `set_path` was not called still has
`path = None`, and `relax_adsorbate_slabs` then produces an unguarded error
that propagates to the caller with nothing written: an `AttributeError` from
reading the never-assigned `db_id` attribute when the ids were not persisted
(raised before path construction), and the `TypeError` from the filesystem
path-construction layer when the slab's ids were assigned but the path is
still `None`. -/
theorem relax_before_set_path_unguarded_error :
    (∀ (enum : EnumFn) (place : PlaceFn) (bulk_atoms : Atoms)
       (adsorbate : Adsorbate) (mode : String) (num_sites num_aug : Nat),
       (CatalystSystem.init enum place bulk_atoms adsorbate mode num_sites num_aug).1.path
         = none)
    ∧ (∀ (calcE : CalcFn) (sys : CatalystSystem) (db : DB) (fs : List String)
         (cfg : AdsorbateSlabConfig) (cfgs : List AdsorbateSlabConfig),
         sys.adsorbate_slab_configs = some (cfg :: cfgs) →
         cfg.slab.bulk.db_id = none →
         CatalystSystem.relax_adsorbate_slabs calcE sys db fs
           = (.error "AttributeError: Bulk object has no attribute db_id", db, fs, []))
    ∧ (∀ (calcE : CalcFn) (sys : CatalystSystem) (db : DB) (fs : List String)
         (cfg : AdsorbateSlabConfig) (cfgs : List AdsorbateSlabConfig) (B S : Nat),
         sys.path = none →
         sys.adsorbate_slab_configs = some (cfg :: cfgs) →
         cfg.slab.bulk.db_id = some B →
         cfg.slab.db_id = some S →
         CatalystSystem.relax_adsorbate_slabs calcE sys db fs
           = (.error "TypeError: expected str, bytes or os.PathLike object, not NoneType",
              db, fs, [])) := by
  refine ⟨?_, ?_, ?_⟩
  · intro enum place bulk_atoms adsorbate mode num_sites num_aug
    simp [CatalystSystem.init]
  · intro calcE sys db fs cfg cfgs hcfg hBnone
    simp [CatalystSystem.relax_adsorbate_slabs, hcfg, relaxConfigsLoop, hBnone]
  · intro calcE sys db fs cfg cfgs B S hpath hcfg hB hS
    simp [CatalystSystem.relax_adsorbate_slabs, hcfg, relaxConfigsLoop, hB, hS, hpath]

/-- Length of the updated bulk list. -/
theorem bulkOut_length (bs : List Bulk) (n : Nat) : (bulkOut bs n).length = bs.length := by
  induction bs generalizing n with
  | nil => simp [bulkOut]
  | cons b bs ih => simp [bulkOut, ih]

/-- The i-th updated bulk is the i-th input bulk carrying id `n + i`. -/
theorem bulkOut_get (bs : List Bulk) (n i : Nat) (hi2 : i < (bulkOut bs n).length)
    (hi : i < bs.length) :
    (bulkOut bs n).get ⟨i, hi2⟩ = { bs.get ⟨i, hi⟩ with db_id := some (n + i) } := by
  induction bs generalizing n i with
  | nil => simp at hi
  | cons b bs ih =>
    cases i with
    | zero => simp [bulkOut]
    | succ j =>
      have := ih (n + 1) j (by simp [bulkOut] at hi2 ⊢; omega) (by simp at hi; omega)
      simp only [bulkOut, List.get] at this ⊢
      rw [this]
      have : n + 1 + j = n + (j + 1) := by omega
      rw [this]

/-- The `db_id` of the i-th updated bulk, read through `getD`. -/
theorem bulkOut_getD_db_id (bs : List Bulk) (n i : Nat) (d : Bulk) (hi : i < bs.length) :
    ((bulkOut bs n).getD i d).db_id = some (n + i) := by
  have hlen : i < (bulkOut bs n).length := by rw [bulkOut_length]; exact hi
  rw [List.getD_eq_get _ _ hlen, bulkOut_get bs n i hlen hi]

/-- The record of the i-th bulk is in the bulk-write record list. -/
theorem bulkRecs_mem (bs : List Bulk) (n i : Nat) (hi : i < bs.length) :
    (n + i, ({ atoms := (bs.get ⟨i, hi⟩).atoms } : Record)) ∈ bulkRecs bs n := by
  induction bs generalizing n i with
  | nil => simp at hi
  | cons b bs ih =>
    cases i with
    | zero => simp [bulkRecs]
    | succ j =>
      have := ih (n + 1) j (by simp at hi; omega)
      have harith : n + 1 + j = n + (j + 1) := by omega
      rw [harith] at this
      simp only [bulkRecs, List.get] at this ⊢
      simp only [List.mem_cons]
      right
      exact this

/-- Length of one updated slab group. -/
theorem slabOutG_length (g : List Slab) (m : Nat) : (slabOutG g m).length = g.length := by
  induction g generalizing m with
  | nil => simp [slabOutG]
  | cons s ss ih => simp [slabOutG, ih]

/-- The si-th updated slab of a group is the si-th input slab carrying id
`m + si`. -/
theorem slabOutG_get (g : List Slab) (m si : Nat) (hs2 : si < (slabOutG g m).length)
    (hs : si < g.length) :
    (slabOutG g m).get ⟨si, hs2⟩ = { g.get ⟨si, hs⟩ with db_id := some (m + si) } := by
  induction g generalizing m si with
  | nil => simp at hs
  | cons s ss ih =>
    cases si with
    | zero => simp [slabOutG]
    | succ j =>
      have := ih (m + 1) j (by simp [slabOutG] at hs2 ⊢; omega) (by simp at hs; omega)
      simp only [slabOutG, List.get] at this ⊢
      rw [this]
      have : m + 1 + j = m + (j + 1) := by omega
      rw [this]

/-- The record of the si-th slab of a group is in the group's record list. -/
theorem slabRecsG_mem (g : List Slab) (m si : Nat) (hs : si < g.length) :
    (m + si, ({ atoms := (g.get ⟨si, hs⟩).atoms,
                bulk_id := (g.get ⟨si, hs⟩).bulk.db_id } : Record)) ∈ slabRecsG g m := by
  induction g generalizing m si with
  | nil => simp at hs
  | cons s ss ih =>
    cases si with
    | zero => simp [slabRecsG]
    | succ j =>
      have := ih (m + 1) j (by simp at hs; omega)
      have harith : m + 1 + j = m + (j + 1) := by omega
      rw [harith] at this
      simp only [slabRecsG, List.get] at this ⊢
      simp only [List.mem_cons]
      right
      exact this

/-- Length of the updated group list. -/
theorem slabOut_length (gs : List (List Slab)) (n : Nat) :
    (slabOut gs n).length = gs.length := by
  induction gs generalizing n with
  | nil => simp [slabOut]
  | cons g gs ih => simp [slabOut, ih]

/-- Each updated group is the pointwise update of the corresponding input
group from some start id, and that group's records all land in the overall
record list. -/
theorem slabOut_get_ex (gs : List (List Slab)) (n gi : Nat)
    (hg2 : gi < (slabOut gs n).length) (hg : gi < gs.length) :
    ∃ m, (slabOut gs n).get ⟨gi, hg2⟩ = slabOutG (gs.get ⟨gi, hg⟩) m
      ∧ ∀ x ∈ slabRecsG (gs.get ⟨gi, hg⟩) m, x ∈ slabRecs gs n := by
  induction gs generalizing n gi with
  | nil => simp at hg
  | cons g gs ih =>
    cases gi with
    | zero =>
      refine ⟨n, by simp [slabOut], ?_⟩
      intro x hx
      simp only [List.get] at hx ⊢
      simp only [slabRecs]
      exact List.mem_append_left _ hx
    | succ j =>
      obtain ⟨m, hm1, hm2⟩ := ih (n + g.length) j (by simp [slabOut] at hg2 ⊢; omega)
        (by simp at hg; omega)
      refine ⟨m, ?_, ?_⟩
      · simp only [slabOut, List.get] at hm1 ⊢
        exact hm1
      · intro x hx
        simp only [List.get] at hx hm2
        simp only [slabRecs]
        exact List.mem_append_right _ (hm2 x hx)

/-- Full behavior of `write_bulks_to_db` on a non-failing store. -/
theorem write_bulks_to_db_ok (bulks : List Bulk) (db : DB) (h : db.failAt = none) :
    write_bulks_to_db bulks db =
      (.ok (bulkOut bulks db.nextId),
       { nextId := db.nextId + bulks.length,
         records := db.records ++ bulkRecs bulks db.nextId,
         isOpen := false, failAt := none }) := by
  unfold write_bulks_to_db withDB
  dsimp only
  rw [writeBulksLoop_ok bulks { db with isOpen := true } (by simp [h])]
  simp [h]

/-- Full behavior of `write_slabs_to_db` on a non-failing store. -/
theorem write_slabs_to_db_ok (gs : List (List Slab)) (db : DB) (h : db.failAt = none) :
    write_slabs_to_db gs db =
      (.ok (slabOut gs db.nextId),
       { nextId := db.nextId + (gs.map List.length).sum,
         records := db.records ++ slabRecs gs db.nextId,
         isOpen := false, failAt := none }) := by
  unfold write_slabs_to_db withDB
  dsimp only
  rw [writeSlabsLoop_ok gs { db with isOpen := true } (by simp [h])]
  simp [h]

/-- Full behavior of `write_adsorbate_slab_configs_to_db` on a non-failing
store. -/
theorem write_adsorbate_slab_configs_to_db_ok (cfgs : List AdsorbateSlabConfig)
    (db : DB) (h : db.failAt = none) :
    write_adsorbate_slab_configs_to_db cfgs db =
      (.ok (cfgOut cfgs db.nextId),
       { nextId := db.nextId + (cfgs.map (fun c => c.atoms_list.length)).sum,
         records := db.records ++ cfgRecs cfgs db.nextId,
         isOpen := false, failAt := none }) := by
  unfold write_adsorbate_slab_configs_to_db withDB
  dsimp only
  rw [writeConfigsLoop_ok cfgs { db with isOpen := true } (by simp [h])]
  simp [h]

/-- Full behavior of `write_adsorbate_slabs_to_db` on a non-failing store. -/
theorem write_adsorbate_slabs_to_db_ok (xs : List RelaxedAdslab) (db : DB)
    (h : db.failAt = none) :
    write_adsorbate_slabs_to_db xs db =
      (.ok (),
       { nextId := db.nextId + xs.length,
         records := db.records ++ adslabRecs xs db.nextId,
         isOpen := false, failAt := none }) := by
  unfold write_adsorbate_slabs_to_db withDB
  dsimp only
  rw [writeAdslabsLoop_ok xs { db with isOpen := true } (by simp [h])]
  simp [h]

/-- Length of one configuration's updated candidate list. -/
theorem cfgAtomOut_length (as_ : List Atoms) (n : Nat) :
    (cfgAtomOut as_ n).length = as_.length := by
  induction as_ generalizing n with
  | nil => simp [cfgAtomOut]
  | cons a as_ ih => simp [cfgAtomOut, ih]

/-- The si-th updated candidate is the si-th input candidate carrying id
`n + si`. -/
theorem cfgAtomOut_get (as_ : List Atoms) (n si : Nat)
    (hs2 : si < (cfgAtomOut as_ n).length) (hs : si < as_.length) :
    (cfgAtomOut as_ n).get ⟨si, hs2⟩ = { as_.get ⟨si, hs⟩ with db_id := some (n + si) } := by
  induction as_ generalizing n si with
  | nil => simp at hs
  | cons a as_ ih =>
    cases si with
    | zero => simp [cfgAtomOut]
    | succ j =>
      have := ih (n + 1) j (by simp [cfgAtomOut] at hs2 ⊢; omega) (by simp at hs; omega)
      simp only [cfgAtomOut, List.get] at this ⊢
      rw [this]
      have : n + 1 + j = n + (j + 1) := by omega
      rw [this]

/-- The record of the si-th candidate is in the configuration's record
list. -/
theorem cfgAtomRecs_mem (cfg : AdsorbateSlabConfig) (as_ : List Atoms) (n si : Nat)
    (hs : si < as_.length) :
    (n + si, ({ atoms := as_.get ⟨si, hs⟩, bulk_id := cfg.slab.bulk.db_id,
                slab_id := cfg.slab.db_id, relaxed := some false } : Record))
      ∈ cfgAtomRecs cfg as_ n := by
  induction as_ generalizing n si with
  | nil => simp at hs
  | cons a as_ ih =>
    cases si with
    | zero => simp [cfgAtomRecs]
    | succ j =>
      have := ih (n + 1) j (by simp at hs; omega)
      have harith : n + 1 + j = n + (j + 1) := by omega
      rw [harith] at this
      simp only [cfgAtomRecs, List.get] at this ⊢
      simp only [List.mem_cons]
      right
      exact this

/-- Length of the updated candidate-list list. -/
theorem cfgOut_length (cfgs : List AdsorbateSlabConfig) (n : Nat) :
    (cfgOut cfgs n).length = cfgs.length := by
  induction cfgs generalizing n with
  | nil => simp [cfgOut]
  | cons cfg cfgs ih => simp [cfgOut, ih]

/-- Each configuration's updated candidates are the pointwise update of that
configuration's candidates from some start id, and that configuration's
records all land in the overall record list. -/
theorem cfgOut_get_ex (cfgs : List AdsorbateSlabConfig) (n gi : Nat)
    (hg2 : gi < (cfgOut cfgs n).length) (hg : gi < cfgs.length) :
    ∃ m, (cfgOut cfgs n).get ⟨gi, hg2⟩ = cfgAtomOut (cfgs.get ⟨gi, hg⟩).atoms_list m
      ∧ ∀ x ∈ cfgAtomRecs (cfgs.get ⟨gi, hg⟩) (cfgs.get ⟨gi, hg⟩).atoms_list m,
          x ∈ cfgRecs cfgs n := by
  induction cfgs generalizing n gi with
  | nil => simp at hg
  | cons cfg cfgs ih =>
    cases gi with
    | zero =>
      refine ⟨n, by simp [cfgOut], ?_⟩
      intro x hx
      simp only [List.get] at hx ⊢
      simp only [cfgRecs]
      exact List.mem_append_left _ hx
    | succ j =>
      obtain ⟨m, hm1, hm2⟩ := ih (n + cfg.atoms_list.length) j
        (by simp [cfgOut] at hg2 ⊢; omega) (by simp at hg; omega)
      refine ⟨m, ?_, ?_⟩
      · simp only [cfgOut, List.get] at hm1 ⊢
        exact hm1
      · intro x hx
        simp only [List.get] at hx hm2
        simp only [cfgRecs]
        exact List.mem_append_right _ (hm2 x hx)

/-- C7: `write_adsorbate_slab_configs_to_db` writes every candidate structure
of every configuration, each tagged with the parent bulk's id, the parent
slab's id and `relaxed=False`, and assigns the store-returned id back onto
that candidate. -/
theorem write_configs_writes_every_candidate (cfgs : List AdsorbateSlabConfig)
    (db : DB) (hdb : db.failAt = none) :
    ∃ updated,
      (write_adsorbate_slab_configs_to_db cfgs db).1 = .ok updated
      ∧ updated.length = cfgs.length
      ∧ ∀ gi (hg : gi < updated.length) (hg2 : gi < cfgs.length),
          (updated.get ⟨gi, hg⟩).length = (cfgs.get ⟨gi, hg2⟩).atoms_list.length
          ∧ ∀ si (hs : si < (updated.get ⟨gi, hg⟩).length)
              (hs2 : si < (cfgs.get ⟨gi, hg2⟩).atoms_list.length),
            ∃ id,
              ((updated.get ⟨gi, hg⟩).get ⟨si, hs⟩)
                = { (cfgs.get ⟨gi, hg2⟩).atoms_list.get ⟨si, hs2⟩ with db_id := some id }
              ∧ (id, { atoms := (cfgs.get ⟨gi, hg2⟩).atoms_list.get ⟨si, hs2⟩,
                       bulk_id := (cfgs.get ⟨gi, hg2⟩).slab.bulk.db_id,
                       slab_id := (cfgs.get ⟨gi, hg2⟩).slab.db_id,
                       relaxed := some false })
                  ∈ (write_adsorbate_slab_configs_to_db cfgs db).2.records := by
  rw [write_adsorbate_slab_configs_to_db_ok cfgs db hdb]
  refine ⟨cfgOut cfgs db.nextId, rfl, cfgOut_length cfgs db.nextId, ?_⟩
  intro gi hg hg2
  obtain ⟨m, hm1, hm2⟩ := cfgOut_get_ex cfgs db.nextId gi hg hg2
  constructor
  · rw [hm1, cfgAtomOut_length]
  · intro si hs hs2
    refine ⟨m + si, ?_, ?_⟩
    · have hs1 : si < (cfgAtomOut (cfgs.get ⟨gi, hg2⟩).atoms_list m).length := by
        rw [← hm1]; exact hs
      have hcast := List.get_of_eq hm1 ⟨si, hs⟩
      rw [hcast]
      exact cfgAtomOut_get (cfgs.get ⟨gi, hg2⟩).atoms_list m si _ hs2
    · have hmem := cfgAtomRecs_mem (cfgs.get ⟨gi, hg2⟩)
        (cfgs.get ⟨gi, hg2⟩).atoms_list m si hs2
      have := hm2 _ hmem
      simp only [List.mem_append]
      right
      exact this

/-- C6: writing M bulks and then their slabs gives referential consistency:
every bulk and every slab object receives its assigned id, every bulk record
is in the store under that id, and every slab record carries exactly the bulk
id assigned to its parent bulk during the bulk write. -/
theorem bulks_then_slabs_referential_consistency (bulks : List Bulk)
    (groups : List (List SlabSpec)) (db : DB) (hdb : db.failAt = none)
    (hidx : ∀ g ∈ groups, ∀ sp ∈ g, sp.bulkIdx < bulks.length) :
    ∃ bulks1 slabs1,
      (write_bulks_then_slabs bulks groups db).2.1 = .ok bulks1
      ∧ (write_bulks_then_slabs bulks groups db).2.2 = .ok slabs1
      ∧ bulks1.length = bulks.length
      ∧ (∀ i (hi : i < bulks1.length) (hi2 : i < bulks.length),
          (bulks1.get ⟨i, hi⟩).db_id = some (db.nextId + i)
          ∧ (db.nextId + i, ({ atoms := (bulks.get ⟨i, hi2⟩).atoms } : Record))
              ∈ (write_bulks_then_slabs bulks groups db).1.records)
      ∧ slabs1.length = groups.length
      ∧ (∀ gi (hg : gi < slabs1.length) (hg2 : gi < groups.length),
          (slabs1.get ⟨gi, hg⟩).length = (groups.get ⟨gi, hg2⟩).length
          ∧ ∀ si (hs : si < (slabs1.get ⟨gi, hg⟩).length)
              (hs2 : si < (groups.get ⟨gi, hg2⟩).length),
            ∃ id,
              ((slabs1.get ⟨gi, hg⟩).get ⟨si, hs⟩).db_id = some id
              ∧ (id, ({ atoms := ((groups.get ⟨gi, hg2⟩).get ⟨si, hs2⟩).atoms,
                        bulk_id := some (db.nextId
                          + ((groups.get ⟨gi, hg2⟩).get ⟨si, hs2⟩).bulkIdx) } : Record))
                  ∈ (write_bulks_then_slabs bulks groups db).1.records) := by
  have hb := write_bulks_to_db_ok bulks db hdb
  have hout : write_bulks_then_slabs bulks groups db
      = (let slabsC : List (List Slab) := groups.map (fun g => g.map (fun sp =>
          { atoms := sp.atoms,
            bulk := (bulkOut bulks db.nextId).getD sp.bulkIdx { atoms := { tag := 0 } } }))
         let outS := write_slabs_to_db slabsC
            { nextId := db.nextId + bulks.length,
              records := db.records ++ bulkRecs bulks db.nextId,
              isOpen := false, failAt := none }
         (outS.2, .ok (bulkOut bulks db.nextId), outS.1)) := by
    unfold write_bulks_then_slabs
    rw [hb]
  set slabsC : List (List Slab) := groups.map (fun g => g.map (fun sp =>
    { atoms := sp.atoms,
      bulk := (bulkOut bulks db.nextId).getD sp.bulkIdx { atoms := { tag := 0 } } })) with hslabsC
  have hs := write_slabs_to_db_ok slabsC
    { nextId := db.nextId + bulks.length,
      records := db.records ++ bulkRecs bulks db.nextId,
      isOpen := false, failAt := none } rfl
  rw [hout]
  dsimp only
  rw [hs]
  dsimp only
  refine ⟨bulkOut bulks db.nextId, slabOut slabsC (db.nextId + bulks.length),
    rfl, rfl, bulkOut_length bulks db.nextId, ?_, ?_, ?_⟩
  · intro i hi hi2
    refine ⟨?_, ?_⟩
    · rw [bulkOut_get bulks db.nextId i hi hi2]
    · have := bulkRecs_mem bulks db.nextId i hi2
      simp only [List.mem_append]
      exact Or.inl (Or.inr this)
  · rw [slabOut_length, hslabsC, List.length_map]
  · intro gi hg hg2
    have hgC : gi < slabsC.length := by rw [hslabsC, List.length_map]; exact hg2
    obtain ⟨m, hm1, hm2⟩ := slabOut_get_ex slabsC (db.nextId + bulks.length) gi hg hgC
    have hgroup : slabsC.get ⟨gi, hgC⟩
        = ((groups.get ⟨gi, hg2⟩).map (fun sp =>
            ({ atoms := sp.atoms,
               bulk := (bulkOut bulks db.nextId).getD sp.bulkIdx { atoms := { tag := 0 } } } : Slab))) := by
      rw [List.get_of_eq hslabsC ⟨gi, hgC⟩]
      simp
    constructor
    · rw [hm1, slabOutG_length, hgroup, List.length_map]
    · intro si hs hs2
      have hsC : si < (slabsC.get ⟨gi, hgC⟩).length := by
        rw [hgroup, List.length_map]; exact hs2
      refine ⟨m + si, ?_, ?_⟩
      · have hcast := List.get_of_eq hm1 ⟨si, hs⟩
        rw [hcast, slabOutG_get (slabsC.get ⟨gi, hgC⟩) m si _ hsC]
      · have hmem := slabRecsG_mem (slabsC.get ⟨gi, hgC⟩) m si hsC
        have hrec := hm2 _ hmem
        have hslab : (slabsC.get ⟨gi, hgC⟩).get ⟨si, hsC⟩
            = ({ atoms := ((groups.get ⟨gi, hg2⟩).get ⟨si, hs2⟩).atoms,
                 bulk := (bulkOut bulks db.nextId).getD
                   ((groups.get ⟨gi, hg2⟩).get ⟨si, hs2⟩).bulkIdx { atoms := { tag := 0 } } } : Slab) := by
          have hcast2 := List.get_of_eq hgroup ⟨si, hsC⟩
          rw [hcast2]
          simp
        rw [hslab] at hrec
        have hdbid : ((bulkOut bulks db.nextId).getD
            ((groups.get ⟨gi, hg2⟩).get ⟨si, hs2⟩).bulkIdx { atoms := { tag := 0 } }).db_id
            = some (db.nextId + ((groups.get ⟨gi, hg2⟩).get ⟨si, hs2⟩).bulkIdx) :=
          bulkOut_getD_db_id bulks db.nextId _ _
            (hidx _ (List.get_mem groups gi hg2) _ (List.get_mem _ si hs2))
        simp only [hdbid] at hrec
        simp only [List.mem_append]
        right
        exact hrec

/-- Length of the relaxed-adslab record list. -/
theorem adslabRecs_length (xs : List RelaxedAdslab) (n : Nat) :
    (adslabRecs xs n).length = xs.length := by
  induction xs generalizing n with
  | nil => simp [adslabRecs]
  | cons x xs ih => simp [adslabRecs, ih]

/-- The candidate indices stored in the relaxed-adslab records are exactly
those carried by the relaxed results, in order. -/
theorem adslabRecs_map_adslab_id (xs : List RelaxedAdslab) (n : Nat) :
    (adslabRecs xs n).map (fun r => r.2.adslab_id) = xs.map RelaxedAdslab.adslab_id := by
  induction xs generalizing n with
  | nil => simp [adslabRecs]
  | cons x xs ih => simp [adslabRecs, ih]

/-- Every relaxed-adslab record comes from one of the relaxed results,
carrying its ids and `relaxed=True`. -/
theorem adslabRecs_mem_src (xs : List RelaxedAdslab) (n : Nat) (r : Nat × Record)
    (hr : r ∈ adslabRecs xs n) :
    ∃ x ∈ xs, r.2 = { atoms := x.atoms, bulk_id := x.bulk_id, slab_id := x.slab_id,
                      adslab_id := x.adslab_id, relaxed := some true } := by
  induction xs generalizing n with
  | nil => simp [adslabRecs] at hr
  | cons x xs ih =>
    simp only [adslabRecs, List.mem_cons] at hr
    rcases hr with hr | hr
    · exact ⟨x, List.mem_cons_self x xs, by rw [hr]⟩
    · obtain ⟨y, hy, hyr⟩ := ih (n + 1) hr
      exact ⟨y, List.mem_cons_of_mem x hy, hyr⟩

/-- Shape of the event trace for a single configuration whose slab carries
both ids: the directory creation comes first, then the per-candidate events,
then only database-writer call events. -/
theorem relaxConfigs_single_trace (calcE : CalcFn) (p : String) (calcOpt : Option Calc)
    (cfg : AdsorbateSlabConfig) (db : DB) (fs : List String) (B S : Nat)
    (hB : cfg.slab.bulk.db_id = some B) (hS : cfg.slab.db_id = some S) :
    ∃ tail,
      (relaxConfigsLoop calcE (some p) calcOpt [cfg] db fs).2.2.2
        = RelaxEvent.mkdir (bulkSlabDir p (some B) (some S))
          :: ((relaxLoop calcE p (some B) (some S)
                cfg.adsorbate.atoms.get_chemical_formula calcOpt cfg.atoms_list 0).2 ++ tail)
      ∧ (∀ e ∈ tail, ∃ n, e = RelaxEvent.dbWriteCall n)
      ∧ (relaxConfigsLoop calcE (some p) calcOpt [cfg] db fs).2.2.1
        = makedirsExistOk fs (bulkSlabDir p (some B) (some S)) := by
  simp only [relaxConfigsLoop, hB, hS]
  rcases hw : write_adsorbate_slabs_to_db
      (relaxLoop calcE p (some B) (some S)
        cfg.adsorbate.atoms.get_chemical_formula calcOpt cfg.atoms_list 0).1 db
    with ⟨res, db1⟩
  cases res with
  | error e =>
    refine ⟨[RelaxEvent.dbWriteCall
      (relaxLoop calcE p (some B) (some S)
        cfg.adsorbate.atoms.get_chemical_formula calcOpt cfg.atoms_list 0).1.length], ?_, ?_, ?_⟩
    · simp [hw]
    · intro e he
      simp at he
      exact ⟨_, he⟩
    · simp [hw]
  | ok u =>
    refine ⟨[RelaxEvent.dbWriteCall
      (relaxLoop calcE p (some B) (some S)
        cfg.adsorbate.atoms.get_chemical_formula calcOpt cfg.atoms_list 0).1.length], ?_, ?_, ?_⟩
    · simp [hw, relaxConfigsLoop]
    · intro e he
      simp at he
      exact ⟨_, he⟩
    · simp [hw, relaxConfigsLoop]

/-- C8: for a configuration with bulk id B and slab id S, relaxation first
creates the directory `<path>/bulk{B}_slab{S}` (idempotently, exist-ok
semantics), and candidate i's relaxation call uses log path
`<dir>/adslab{i}.txt` and trajectory path `<dir>/adslab{i}.traj`. -/
theorem relax_filesystem_layout (calcE : CalcFn) (sys : CatalystSystem) (db : DB)
    (fs : List String) (cfg : AdsorbateSlabConfig) (p : String) (B S i : Nat)
    (hcfg : sys.adsorbate_slab_configs = some [cfg])
    (hp : sys.path = some p)
    (hB : cfg.slab.bulk.db_id = some B)
    (hS : cfg.slab.db_id = some S)
    (hi : i < cfg.atoms_list.length) :
    bulkSlabDir p (some B) (some S)
      = p ++ "/bulk" ++ toString B ++ "_slab" ++ toString S
    ∧ adslabLogPath p (some B) (some S) i
      = bulkSlabDir p (some B) (some S) ++ "/adslab" ++ toString i ++ ".txt"
    ∧ adslabTrajPath p (some B) (some S) i
      = bulkSlabDir p (some B) (some S) ++ "/adslab" ++ toString i ++ ".traj"
    ∧ (∃ evs,
        (CatalystSystem.relax_adsorbate_slabs calcE sys db fs).2.2.2
          = RelaxEvent.mkdir (bulkSlabDir p (some B) (some S)) :: evs
        ∧ RelaxEvent.relaxCall i (adslabLogPath p (some B) (some S) i)
            (adslabTrajPath p (some B) (some S) i) ∈ evs)
    ∧ (CatalystSystem.relax_adsorbate_slabs calcE sys db fs).2.2.1
        = makedirsExistOk fs (bulkSlabDir p (some B) (some S))
    ∧ bulkSlabDir p (some B) (some S) ∈ makedirsExistOk fs (bulkSlabDir p (some B) (some S))
    ∧ (bulkSlabDir p (some B) (some S) ∈ fs →
        makedirsExistOk fs (bulkSlabDir p (some B) (some S)) = fs) := by
  refine ⟨?_, ?_, ?_, ?_, ?_, ?_, ?_⟩
  · simp only [bulkSlabDir, ospathJoin, idStr, String.append_assoc]
    rw [← String.append_assoc "/" "bulk", show ("/" ++ "bulk" : String) = "/bulk" from rfl]
  · simp [adslabLogPath, bulkSlabDir, ospathJoin, String.append_assoc]
  · simp [adslabTrajPath, bulkSlabDir, ospathJoin, String.append_assoc]
  · obtain ⟨tail, htr, htail, hfs⟩ :=
      relaxConfigs_single_trace calcE p sys.calcOpt cfg db fs B S hB hS
    refine ⟨(relaxLoop calcE p (some B) (some S)
        cfg.adsorbate.atoms.get_chemical_formula sys.calcOpt cfg.atoms_list 0).2 ++ tail, ?_, ?_⟩
    · simp only [CatalystSystem.relax_adsorbate_slabs, hcfg, hp]
      exact htr
    · apply List.mem_append_left
      have := relaxLoop_relaxCall_mem calcE p (some B) (some S)
        cfg.adsorbate.atoms.get_chemical_formula sys.calcOpt cfg.atoms_list 0 i hi
      simpa using this
  · obtain ⟨tail, htr, htail, hfs⟩ :=
      relaxConfigs_single_trace calcE p sys.calcOpt cfg db fs B S hB hS
    simp only [CatalystSystem.relax_adsorbate_slabs, hcfg, hp]
    exact hfs
  · simp only [makedirsExistOk]
    by_cases hmem : bulkSlabDir p (some B) (some S) ∈ fs
    · simp [hmem]
    · simp [hmem]
  · intro hmem
    simp [makedirsExistOk, hmem]

/-- C1: for a configuration with T candidates where candidate k's relaxation
raises and all the others succeed, `relax_adsorbate_slabs` logs the failure
with bulk id, slab id and candidate index, continues with the remaining
candidates, and writes exactly T - 1 relaxed records in one database call,
each tagged with the bulk id, the slab id and its original candidate index. -/
theorem relax_one_candidate_fails (calcE : CalcFn) (sys : CatalystSystem) (db : DB)
    (fs : List String) (cfg : AdsorbateSlabConfig) (p : String) (B S k : Nat)
    (f : Nat → Atoms) (emsg : String)
    (hcfg : sys.adsorbate_slab_configs = some [cfg])
    (hp : sys.path = some p)
    (hB : cfg.slab.bulk.db_id = some B)
    (hS : cfg.slab.db_id = some S)
    (hdb : db.failAt = none)
    (hk : k < cfg.atoms_list.length)
    (hok : ∀ j (hj : j < cfg.atoms_list.length), j ≠ k →
      calcE (cfg.atoms_list.get ⟨j, hj⟩) (adslabLogPath p (some B) (some S) j)
        (adslabTrajPath p (some B) (some S) j) sys.calcOpt = .ok (f j))
    (hfail : ∀ (hj : k < cfg.atoms_list.length),
      calcE (cfg.atoms_list.get ⟨k, hj⟩) (adslabLogPath p (some B) (some S) k)
        (adslabTrajPath p (some B) (some S) k) sys.calcOpt = .error emsg) :
    (CatalystSystem.relax_adsorbate_slabs calcE sys db fs).1 = .ok ()
    ∧ (∃ recs,
        (CatalystSystem.relax_adsorbate_slabs calcE sys db fs).2.1.records
          = db.records ++ recs
        ∧ recs.length = cfg.atoms_list.length - 1
        ∧ recs.map (fun r => r.2.adslab_id)
            = ((List.range' 0 cfg.atoms_list.length).filter (fun j => j ≠ k)).map some
        ∧ (∀ r ∈ recs, r.2.bulk_id = some B ∧ r.2.slab_id = some S
            ∧ r.2.relaxed = some true))
    ∧ ((CatalystSystem.relax_adsorbate_slabs calcE sys db fs).2.2.2).filter
        RelaxEvent.isDbWriteCall
        = [RelaxEvent.dbWriteCall (cfg.atoms_list.length - 1)]
    ∧ RelaxEvent.logError (some B) (some S) k
        ∈ (CatalystSystem.relax_adsorbate_slabs calcE sys db fs).2.2.2 := by
  have hok0 : ∀ j (hj : j < cfg.atoms_list.length), 0 + j ≠ k →
      calcE (cfg.atoms_list.get ⟨j, hj⟩) (adslabLogPath p (some B) (some S) (0 + j))
        (adslabTrajPath p (some B) (some S) (0 + j)) sys.calcOpt = .ok (f (0 + j)) := by
    intro j hj hne
    simpa using hok j hj (by simpa using hne)
  have hfail0 : ∀ j (hj : j < cfg.atoms_list.length), 0 + j = k →
      calcE (cfg.atoms_list.get ⟨j, hj⟩) (adslabLogPath p (some B) (some S) (0 + j))
        (adslabTrajPath p (some B) (some S) (0 + j)) sys.calcOpt = .error emsg := by
    intro j hj heq
    have hjk : j = k := by omega
    subst hjk
    simpa using hfail hj
  have hinner := relaxLoop_kfail calcE p (some B) (some S)
    cfg.adsorbate.atoms.get_chemical_formula sys.calcOpt cfg.atoms_list 0 k f emsg
    hok0 hfail0
  have hlogerr := relaxLoop_logError_mem calcE p (some B) (some S)
    cfg.adsorbate.atoms.get_chemical_formula sys.calcOpt cfg.atoms_list 0 k hk emsg
    (by simpa using hfail hk)
  have hnodb := relaxLoop_no_dbWrite calcE p (some B) (some S)
    cfg.adsorbate.atoms.get_chemical_formula sys.calcOpt cfg.atoms_list 0
  set xs : List RelaxedAdslab :=
    ((List.range' 0 cfg.atoms_list.length).filter (fun j => j ≠ k)).map
      (fun j => { atoms := f j, bulk_id := some B, slab_id := some S,
                  adslab_id := some j,
                  adsorbate := cfg.adsorbate.atoms.get_chemical_formula }) with hxs
  have hxslen : xs.length = cfg.atoms_list.length - 1 := by
    rw [hxs, List.length_map]
    exact range'_filter_ne_len cfg.atoms_list.length 0 k (by omega) (by omega)
  have hw := write_adsorbate_slabs_to_db_ok xs db hdb
  simp only [CatalystSystem.relax_adsorbate_slabs, hcfg, hp, relaxConfigsLoop]
  simp only [hB, hS]
  rw [hinner, hw]
  dsimp only
  refine ⟨rfl, ⟨adslabRecs xs db.nextId, rfl, ?_, ?_, ?_⟩, ?_, ?_⟩
  · rw [adslabRecs_length]
    exact hxslen
  · rw [adslabRecs_map_adslab_id, hxs]
    simp [List.map_map]
  · intro r hr
    obtain ⟨x, hxmem, hxr⟩ := adslabRecs_mem_src xs db.nextId r hr
    rw [hxs] at hxmem
    obtain ⟨j, hjmem, hj⟩ := List.mem_map.mp hxmem
    subst hj
    rw [hxr]
    exact ⟨rfl, rfl, rfl⟩
  · have hinner2 : (relaxLoop calcE p (some B) (some S)
        cfg.adsorbate.atoms.get_chemical_formula sys.calcOpt cfg.atoms_list 0).2.filter
        RelaxEvent.isDbWriteCall = [] := by
      rw [List.filter_eq_nil_iff]
      intro e he
      cases e with
      | mkdir d => simp [RelaxEvent.isDbWriteCall]
      | relaxCall i lp tp => simp [RelaxEvent.isDbWriteCall]
      | logError b s i => simp [RelaxEvent.isDbWriteCall]
      | dbWriteCall n => exact absurd he (hnodb n)
    simp [List.filter_cons, List.filter_append, hinner2, RelaxEvent.isDbWriteCall, hxslen]
  · refine List.mem_cons_of_mem _ (List.mem_append_left _ ?_)
    simpa using hlogerr

/-- C9: every database-writer operation performs its writes inside the scoped
store acquisition, with the store released on every exit path; a store error
raised mid-loop is not caught — it propagates to the caller while the records
written before the error remain in the store. -/
theorem writers_scoped_release_and_error_propagation :
    (∀ (bulks : List Bulk) (db : DB), (write_bulks_to_db bulks db).2.isOpen = false)
    ∧ (∀ (gs : List (List Slab)) (db : DB), (write_slabs_to_db gs db).2.isOpen = false)
    ∧ (∀ (cfgs : List AdsorbateSlabConfig) (db : DB),
        (write_adsorbate_slab_configs_to_db cfgs db).2.isOpen = false)
    ∧ (∀ (xs : List RelaxedAdslab) (db : DB),
        (write_adsorbate_slabs_to_db xs db).2.isOpen = false)
    ∧ (∀ (bulks : List Bulk) (db : DB) (m : Nat), db.failAt = some m →
        db.nextId ≤ m → m < db.nextId + bulks.length →
        (write_bulks_to_db bulks db).1 = .error "DatabaseError: write failed"
        ∧ (write_bulks_to_db bulks db).2.records
            = db.records ++ (bulkRecs bulks db.nextId).take (m - db.nextId))
    ∧ (∀ (gs : List (List Slab)) (db : DB) (m : Nat), db.failAt = some m →
        db.nextId ≤ m → m < db.nextId + (gs.map List.length).sum →
        (write_slabs_to_db gs db).1 = .error "DatabaseError: write failed"
        ∧ (write_slabs_to_db gs db).2.records
            = db.records ++ (slabRecs gs db.nextId).take (m - db.nextId))
    ∧ (∀ (cfgs : List AdsorbateSlabConfig) (db : DB) (m : Nat), db.failAt = some m →
        db.nextId ≤ m → m < db.nextId + (cfgs.map (fun c => c.atoms_list.length)).sum →
        (write_adsorbate_slab_configs_to_db cfgs db).1 = .error "DatabaseError: write failed"
        ∧ (write_adsorbate_slab_configs_to_db cfgs db).2.records
            = db.records ++ (cfgRecs cfgs db.nextId).take (m - db.nextId))
    ∧ (∀ (xs : List RelaxedAdslab) (db : DB) (m : Nat), db.failAt = some m →
        db.nextId ≤ m → m < db.nextId + xs.length →
        (write_adsorbate_slabs_to_db xs db).1 = .error "DatabaseError: write failed"
        ∧ (write_adsorbate_slabs_to_db xs db).2.records
            = db.records ++ (adslabRecs xs db.nextId).take (m - db.nextId)) := by
  refine ⟨?_, ?_, ?_, ?_, ?_, ?_, ?_, ?_⟩
  · intro bulks db
    simp [write_bulks_to_db, withDB]
  · intro gs db
    simp [write_slabs_to_db, withDB]
  · intro cfgs db
    simp [write_adsorbate_slab_configs_to_db, withDB]
  · intro xs db
    simp [write_adsorbate_slabs_to_db, withDB]
  · intro bulks db m h h1 h2
    unfold write_bulks_to_db withDB
    dsimp only
    rw [writeBulksLoop_fail bulks { db with isOpen := true } m h h1 h2]
    exact ⟨rfl, rfl⟩
  · intro gs db m h h1 h2
    unfold write_slabs_to_db withDB
    dsimp only
    rw [writeSlabsLoop_fail gs { db with isOpen := true } m h h1 h2]
    exact ⟨rfl, rfl⟩
  · intro cfgs db m h h1 h2
    unfold write_adsorbate_slab_configs_to_db withDB
    dsimp only
    rw [writeConfigsLoop_fail cfgs { db with isOpen := true } m h h1 h2]
    exact ⟨rfl, rfl⟩
  · intro xs db m h h1 h2
    unfold write_adsorbate_slabs_to_db withDB
    dsimp only
    rw [writeAdslabsLoop_fail xs { db with isOpen := true } m h h1 h2]
    exact ⟨rfl, rfl⟩

/-- Witness for the C1 theorem at a concrete three-candidate configuration
with candidate 1 failing. -/
theorem relax_one_candidate_fails_witness :
    1 < cfgW.atoms_list.length
    ∧ (CatalystSystem.relax_adsorbate_slabs calcEW sysW dbW []).1 = Except.ok ()
    ∧ RelaxEvent.logError (some 7) (some 3) 1
        ∈ (CatalystSystem.relax_adsorbate_slabs calcEW sysW dbW []).2.2.2 :=
  ⟨by decide,
   (relax_one_candidate_fails calcEW sysW dbW [] cfgW "out" 7 3 1 fW "boom"
      rfl rfl rfl rfl rfl (by decide) (by
        intro j hj hne
        have h3 : j < 3 := hj
        interval_cases j
        · rfl
        · exact absurd rfl hne
        · rfl) (fun _ => rfl)).1,
   (relax_one_candidate_fails calcEW sysW dbW [] cfgW "out" 7 3 1 fW "boom"
      rfl rfl rfl rfl rfl (by decide) (by
        intro j hj hne
        have h3 : j < 3 := hj
        interval_cases j
        · rfl
        · exact absurd rfl hne
        · rfl) (fun _ => rfl)).2.2.2⟩

/-- Witness for the C3 theorem at a concrete bulk enumerating to one slab. -/
theorem init_builds_config_per_slab_witness :
    ∃ cfgs,
      (CatalystSystem.init enumW placeW (atomsW 0) adsW "m" 3 2).1.adsorbate_slab_configs
        = some cfgs
      ∧ cfgs.length = [slabW0].length := by
  obtain ⟨cfgs, h1, h2, h3⟩ :=
    init_builds_config_per_slab enumW placeW (atomsW 0) adsW "m" 3 2 [slabW0]
      rfl (by decide)
  exact ⟨cfgs, h1, h2⟩

/-- Witness for the C4 theorem at a concrete failing enumeration. -/
theorem init_enum_failure_caught_witness :
    (CatalystSystem.init enumFailW placeW (atomsW 0) adsW "m" 3 2).1.slabs = none
    ∧ (CatalystSystem.init enumFailW placeW (atomsW 0) adsW "m" 3 2).1.adsorbate_slab_configs = none
    ∧ (CatalystSystem.init enumFailW placeW (atomsW 0) adsW "m" 3 2).2
        = ["Error creating slab from bulk", "lib crash"] :=
  init_enum_failure_caught enumFailW placeW (atomsW 0) adsW "m" 3 2 "lib crash" rfl

/-- Witness for the C5 theorem at a concrete empty enumeration. -/
theorem relax_after_failed_enumeration_witness :
    (CatalystSystem.init enumEmptyW placeW (atomsW 0) adsW "m" 3 2).1.adsorbate_slab_configs = none
    ∧ CatalystSystem.relax_adsorbate_slabs calcEW
        (CatalystSystem.init enumEmptyW placeW (atomsW 0) adsW "m" 3 2).1 dbW []
      = (.error "AttributeError: CatalystSystem object has no attribute adsorbate_slab_configs",
         dbW, [], []) :=
  relax_after_failed_enumeration_attribute_error enumEmptyW placeW (atomsW 0) adsW
    "m" 3 2 calcEW dbW [] (Or.inl rfl)

/-- Witness for the C6 theorem at two bulks with one slab each. -/
theorem bulks_then_slabs_witness :
    ∃ bulks1 slabs1,
      (write_bulks_then_slabs bulksW groupsW dbW).2.1 = .ok bulks1
      ∧ (write_bulks_then_slabs bulksW groupsW dbW).2.2 = .ok slabs1
      ∧ bulks1.length = bulksW.length := by
  obtain ⟨bulks1, slabs1, h1, h2, h3, h4⟩ :=
    bulks_then_slabs_referential_consistency bulksW groupsW dbW rfl (by decide)
  exact ⟨bulks1, slabs1, h1, h2, h3⟩

/-- Witness for the C7 theorem at one concrete configuration. -/
theorem write_configs_witness :
    ∃ updated,
      (write_adsorbate_slab_configs_to_db [cfgW] dbW).1 = .ok updated
      ∧ updated.length = [cfgW].length := by
  obtain ⟨updated, h1, h2, h3⟩ := write_configs_writes_every_candidate [cfgW] dbW rfl
  exact ⟨updated, h1, h2⟩

/-- Witness for the C8 theorem at candidate 0 of the concrete system. -/
theorem relax_filesystem_layout_witness :
    bulkSlabDir "out" (some 7) (some 3)
      = "out" ++ "/bulk" ++ toString 7 ++ "_slab" ++ toString 3
    ∧ (∃ evs,
        (CatalystSystem.relax_adsorbate_slabs calcEW sysW dbW []).2.2.2
          = RelaxEvent.mkdir (bulkSlabDir "out" (some 7) (some 3)) :: evs
        ∧ RelaxEvent.relaxCall 0 (adslabLogPath "out" (some 7) (some 3) 0)
            (adslabTrajPath "out" (some 7) (some 3) 0) ∈ evs) :=
  ⟨(relax_filesystem_layout calcEW sysW dbW [] cfgW "out" 7 3 0
      rfl rfl rfl rfl (by decide)).1,
   (relax_filesystem_layout calcEW sysW dbW [] cfgW "out" 7 3 0
      rfl rfl rfl rfl (by decide)).2.2.2.1⟩

/-- Witness for the C9 theorem: release on the success path, and a store
failing on its second write propagates the error. -/
theorem writers_scoped_release_witness :
    (write_bulks_to_db [bulkW] dbW).2.isOpen = false
    ∧ (write_bulks_to_db [{ atoms := atomsW 1 }, { atoms := atomsW 2 }] dbFailW).1
        = .error "DatabaseError: write failed" :=
  ⟨writers_scoped_release_and_error_propagation.1 [bulkW] dbW,
   (writers_scoped_release_and_error_propagation.2.2.2.2.1
      [{ atoms := atomsW 1 }, { atoms := atomsW 2 }] dbFailW 1 rfl (by decide)
      (by decide)).1⟩

/-- Witness for the amended C10 theorem: a fresh construction has no path; a
system with unassigned ids raises the attribute error; the ready system with
ids assigned but no path raises the path-construction error. -/
theorem relax_before_set_path_witness :
    (CatalystSystem.init enumW placeW (atomsW 0) adsW "m" 3 2).1.path = none
    ∧ CatalystSystem.relax_adsorbate_slabs calcEW sysNoIdsW dbW []
      = (.error "AttributeError: Bulk object has no attribute db_id", dbW, [], [])
    ∧ CatalystSystem.relax_adsorbate_slabs calcEW sysNoPathW dbW []
      = (.error "TypeError: expected str, bytes or os.PathLike object, not NoneType",
         dbW, [], []) :=
  ⟨relax_before_set_path_unguarded_error.1 enumW placeW (atomsW 0) adsW "m" 3 2,
   relax_before_set_path_unguarded_error.2.1 calcEW sysNoIdsW dbW [] cfgNoIdsW [] rfl rfl,
   relax_before_set_path_unguarded_error.2.2 calcEW sysNoPathW dbW [] cfgW [] 7 3
     rfl rfl rfl rfl⟩
